import Mathlib

/-!
# Verification of the Archimate-Ingester relationship engine

A shallow embedding of the relationship-rule engine of `8.3.py` /
`config.py`, the impact-propagation routines of `Modeller.py`,
`networkx_analyzer.py` and `graphml_core.py`, and the autocomplete driver
of `8.3.py`, together with theorems settling the specification claims.

Conventions:
* Python strings are Lean `String`s; string helpers are implemented over
  `String.data` (`List Char`) so that concrete runs reduce in the kernel.
* Python dict/list structures become association lists (`List (String × α)`),
  preserving insertion order; `lookup_str` returns the first binding,
  matching dict-key uniqueness in the source.
* Fallible operations (Python exceptions) are `Except PyError`.
* Python floats are embedded as `ℚ`; every constant in the source
  (0.7, 0.5, 0.8, …) is an exact decimal, so products and comparisons in
  the embedded algorithms are the exact rational counterparts of the
  float computations.
-/

set_option autoImplicit false

namespace ArchimateIngester

/-- Python exceptions that the embedded code can raise. -/
inductive PyError where
  | attributeError
  | keyError
deriving DecidableEq, Repr

/-! ## String helpers (over `List Char`) -/

/-- `l` starts with `pat` (Python `str.startswith`, on char lists). -/
def char_list_has_head (l pat : List Char) : Bool :=
  decide (l.take pat.length = pat)

/-- `pat` occurs as a contiguous substring of `l` (Python `pat in l`). -/
def char_list_has_sub : List Char → List Char → Bool
  | [], pat => pat.isEmpty
  | c :: rest, pat => char_list_has_head (c :: rest) pat || char_list_has_sub rest pat

/-- Python `s.split(":")[-1]`: the segment after the last colon
(`s` itself when no colon occurs). -/
def after_last_colon (l : List Char) : List Char :=
  l.foldl (fun acc c => if c = ':' then [] else acc ++ [c]) []

/-- Strips any namespace segment: `"archimate:Goal" ↦ "Goal"`.
Embeds the `if ":" in t: t = t.split(":")[-1]` idiom of `8.3.py`. -/
def strip_ns (s : String) : String :=
  String.mk (after_last_colon s.data)

/-- Python `s.endswith(p)`. -/
def str_endswith (s p : String) : Bool :=
  decide (s.data.reverse.take p.data.length = p.data.reverse)

/-- Python `p in s` (substring containment). -/
def str_has_sub (s p : String) : Bool :=
  char_list_has_sub s.data p.data

/-- Python `s.lower()` (sufficient for the ASCII type tags of the model). -/
def str_lower (s : String) : String :=
  String.mk (s.data.map Char.toLower)

/-- First-binding association-list lookup, the embedding of
Python `dict[key]` access (dict keys are unique at construction). -/
def lookup_str {α : Type} : List (String × α) → String → Option α
  | [], _ => none
  | (k, v) :: rest, s => if k = s then some v else lookup_str rest s

/-! ## `config.RELATIONSHIP_RULES`

The full rule table of `config.py` (lines 77–452): for each source element
type, the map from relationship type to the list of allowed target types
(`"*"` = any target).  Each Python entry is `{"allowed_targets": {...}}`;
the wrapper dict has no other key, so the embedding stores the
`allowed_targets` map directly. -/

def RELATIONSHIP_RULES : List (String × List (String × List String)) :=
  [ ("Capability",
     [ ("RealizationRelationship", ["Goal", "Requirement", "Outcome", "CourseOfAction"]),
       ("ServingRelationship", ["BusinessActor", "BusinessRole"]),
       ("CompositionRelationship", ["Capability"]),
       ("AggregationRelationship", ["Capability"]),
       ("InfluenceRelationship", ["Goal", "Principle", "Requirement"]),
       ("AssociationRelationship", ["*"]) ]),
    ("CourseOfAction",
     [ ("RealizationRelationship", ["Capability", "Goal"]),
       ("ServingRelationship", ["BusinessActor", "BusinessRole"]),
       ("CompositionRelationship", ["CourseOfAction"]),
       ("AggregationRelationship", ["CourseOfAction"]),
       ("AssociationRelationship", ["*"]) ]),
    ("ValueStream",
     [ ("CompositionRelationship", ["ValueStream"]),
       ("AggregationRelationship", ["ValueStream"]),
       ("RealizationRelationship", ["BusinessProcess", "BusinessFunction"]),
       ("AssociationRelationship", ["*"]) ]),
    ("Resource",
     [ ("RealizationRelationship", ["BusinessObject", "DataObject", "Artifact"]),
       ("CompositionRelationship", ["Resource"]),
       ("AggregationRelationship", ["Resource"]),
       ("AssociationRelationship", ["*"]) ]),
    ("Stakeholder",
     [ ("InfluenceRelationship", ["Goal", "Driver", "Requirement"]),
       ("AssignmentRelationship", ["BusinessActor", "BusinessRole"]),
       ("AssociationRelationship", ["*"]) ]),
    ("Driver",
     [ ("InfluenceRelationship", ["Goal", "Assessment", "Requirement"]),
       ("AssociationRelationship", ["*"]) ]),
    ("Assessment",
     [ ("InfluenceRelationship", ["Driver", "Goal"]),
       ("AssociationRelationship", ["*"]) ]),
    ("Goal",
     [ ("RealizationRelationship", ["Outcome", "Capability"]),
       ("InfluenceRelationship", ["Goal", "Principle", "Requirement"]),
       ("CompositionRelationship", ["Goal"]),
       ("AggregationRelationship", ["Goal"]),
       ("AssociationRelationship", ["*"]),
       ("SpecializationRelationship", ["Goal"]) ]),
    ("Outcome",
     [ ("RealizationRelationship", ["Capability"]),
       ("InfluenceRelationship", ["Goal"]),
       ("AssociationRelationship", ["*"]) ]),
    ("Principle",
     [ ("InfluenceRelationship", ["Goal", "Requirement", "Constraint"]),
       ("AssociationRelationship", ["*"]) ]),
    ("Requirement",
     [ ("RealizationRelationship",
        ["ApplicationService", "TechnologyService", "BusinessService", "Capability", "CourseOfAction"]),
       ("InfluenceRelationship", ["Goal", "Principle", "Requirement"]),
       ("CompositionRelationship", ["Requirement"]),
       ("AggregationRelationship", ["Requirement"]),
       ("AssociationRelationship", ["*"]),
       ("SpecializationRelationship", ["Requirement"]) ]),
    ("Constraint",
     [ ("InfluenceRelationship", ["Goal", "Requirement", "Principle"]),
       ("AssociationRelationship", ["*"]) ]),
    ("BusinessActor",
     [ ("ServingRelationship", ["BusinessActor", "BusinessRole", "BusinessProcess", "BusinessFunction"]),
       ("UsedByRelationship", ["BusinessProcess", "BusinessFunction"]),
       ("CompositionRelationship", ["BusinessActor", "BusinessRole"]),
       ("AggregationRelationship", ["BusinessActor", "BusinessRole"]),
       ("AssignmentRelationship", ["BusinessRole"]),
       ("AssociationRelationship", ["*"]),
       ("SpecializationRelationship", ["BusinessActor"]) ]),
    ("BusinessRole",
     [ ("ServingRelationship", ["BusinessActor", "BusinessRole", "BusinessProcess", "BusinessFunction"]),
       ("UsedByRelationship", ["BusinessProcess", "BusinessFunction"]),
       ("CompositionRelationship", ["BusinessRole"]),
       ("AggregationRelationship", ["BusinessRole"]),
       ("AssignmentRelationship", ["BusinessActor"]),
       ("AssociationRelationship", ["*"]),
       ("SpecializationRelationship", ["BusinessRole"]) ]),
    ("BusinessCollaboration",
     [ ("ServingRelationship", ["BusinessProcess", "BusinessFunction"]),
       ("CompositionRelationship", ["BusinessActor", "BusinessRole"]),
       ("AggregationRelationship", ["BusinessActor", "BusinessRole"]),
       ("AssociationRelationship", ["*"]) ]),
    ("BusinessInterface",
     [ ("ServingRelationship", ["BusinessActor", "BusinessRole", "BusinessProcess"]),
       ("AssignmentRelationship", ["BusinessService"]),
       ("CompositionRelationship", ["BusinessActor", "BusinessRole"]),
       ("AssociationRelationship", ["*"]) ]),
    ("BusinessProcess",
     [ ("UsedByRelationship", ["BusinessActor", "BusinessRole"]),
       ("ServingRelationship", ["BusinessActor", "BusinessRole"]),
       ("AccessRelationship", ["BusinessObject"]),
       ("FlowRelationship", ["BusinessProcess", "BusinessFunction"]),
       ("TriggeringRelationship", ["BusinessProcess", "BusinessFunction", "BusinessEvent"]),
       ("CompositionRelationship", ["BusinessProcess", "BusinessFunction"]),
       ("AggregationRelationship", ["BusinessProcess", "BusinessFunction"]),
       ("AssociationRelationship", ["*"]),
       ("SpecializationRelationship", ["BusinessProcess"]) ]),
    ("BusinessFunction",
     [ ("UsedByRelationship", ["BusinessActor", "BusinessRole"]),
       ("ServingRelationship", ["BusinessActor", "BusinessRole"]),
       ("AccessRelationship", ["BusinessObject"]),
       ("FlowRelationship", ["BusinessProcess", "BusinessFunction"]),
       ("TriggeringRelationship", ["BusinessProcess", "BusinessFunction", "BusinessEvent"]),
       ("CompositionRelationship", ["BusinessFunction"]),
       ("AggregationRelationship", ["BusinessFunction"]),
       ("AssociationRelationship", ["*"]),
       ("SpecializationRelationship", ["BusinessFunction"]) ]),
    ("BusinessInteraction",
     [ ("FlowRelationship", ["BusinessProcess", "BusinessFunction", "BusinessInteraction"]),
       ("TriggeringRelationship", ["BusinessProcess", "BusinessFunction", "BusinessEvent"]),
       ("AssociationRelationship", ["*"]) ]),
    ("BusinessEvent",
     [ ("TriggeringRelationship", ["BusinessProcess", "BusinessFunction"]),
       ("AssociationRelationship", ["*"]) ]),
    ("BusinessService",
     [ ("ServingRelationship", ["BusinessActor", "BusinessRole", "BusinessProcess"]),
       ("RealizationRelationship", ["ApplicationService", "BusinessProcess", "BusinessFunction"]),
       ("AccessRelationship", ["BusinessObject"]),
       ("CompositionRelationship", ["BusinessService"]),
       ("AggregationRelationship", ["BusinessService"]),
       ("AssociationRelationship", ["*"]),
       ("SpecializationRelationship", ["BusinessService"]) ]),
    ("BusinessObject",
     [ ("AccessRelationship", ["BusinessProcess", "BusinessFunction", "BusinessService"]),
       ("RealizationRelationship", ["DataObject"]),
       ("CompositionRelationship", ["BusinessObject"]),
       ("AggregationRelationship", ["BusinessObject"]),
       ("AssociationRelationship", ["*"]) ]),
    ("BusinessContract",
     [ ("AccessRelationship", ["BusinessProcess", "BusinessFunction"]),
       ("AssociationRelationship", ["*"]) ]),
    ("BusinessRepresentation",
     [ ("AccessRelationship", ["BusinessObject"]),
       ("AssociationRelationship", ["*"]) ]),
    ("ApplicationComponent",
     [ ("RealizationRelationship", ["ApplicationService", "ApplicationFunction"]),
       ("UsedByRelationship", ["ApplicationComponent"]),
       ("ServingRelationship", ["ApplicationComponent"]),
       ("AccessRelationship", ["DataObject"]),
       ("FlowRelationship", ["ApplicationComponent"]),
       ("CompositionRelationship", ["ApplicationComponent", "ApplicationInterface", "ApplicationFunction"]),
       ("AggregationRelationship", ["ApplicationComponent", "ApplicationInterface", "ApplicationFunction"]),
       ("AssociationRelationship", ["*"]),
       ("SpecializationRelationship", ["ApplicationComponent"]) ]),
    ("ApplicationCollaboration",
     [ ("CompositionRelationship", ["ApplicationComponent"]),
       ("AggregationRelationship", ["ApplicationComponent"]),
       ("AssociationRelationship", ["*"]) ]),
    ("ApplicationInterface",
     [ ("ServingRelationship", ["BusinessActor", "BusinessRole", "BusinessProcess", "ApplicationComponent"]),
       ("AssignmentRelationship", ["ApplicationService"]),
       ("CompositionRelationship", ["ApplicationComponent"]),
       ("AssociationRelationship", ["*"]),
       ("SpecializationRelationship", ["ApplicationInterface"]) ]),
    ("ApplicationService",
     [ ("ServingRelationship", ["BusinessProcess", "BusinessFunction", "BusinessService", "ApplicationComponent"]),
       ("RealizationRelationship", ["ApplicationComponent", "ApplicationFunction"]),
       ("AccessRelationship", ["DataObject"]),
       ("CompositionRelationship", ["ApplicationService"]),
       ("AggregationRelationship", ["ApplicationService"]),
       ("AssociationRelationship", ["*"]),
       ("SpecializationRelationship", ["ApplicationService"]) ]),
    ("ApplicationFunction",
     [ ("UsedByRelationship", ["ApplicationComponent"]),
       ("AccessRelationship", ["DataObject"]),
       ("FlowRelationship", ["ApplicationFunction"]),
       ("TriggeringRelationship", ["ApplicationFunction", "ApplicationEvent"]),
       ("CompositionRelationship", ["ApplicationFunction"]),
       ("AggregationRelationship", ["ApplicationFunction"]),
       ("AssociationRelationship", ["*"]),
       ("SpecializationRelationship", ["ApplicationFunction"]) ]),
    ("ApplicationProcess",
     [ ("AccessRelationship", ["DataObject"]),
       ("FlowRelationship", ["ApplicationProcess"]),
       ("TriggeringRelationship", ["ApplicationProcess", "ApplicationEvent"]),
       ("CompositionRelationship", ["ApplicationProcess"]),
       ("AggregationRelationship", ["ApplicationProcess"]),
       ("AssociationRelationship", ["*"]) ]),
    ("ApplicationInteraction",
     [ ("FlowRelationship", ["ApplicationProcess", "ApplicationFunction", "ApplicationInteraction"]),
       ("TriggeringRelationship", ["ApplicationProcess", "ApplicationFunction", "ApplicationEvent"]),
       ("AssociationRelationship", ["*"]) ]),
    ("ApplicationEvent",
     [ ("TriggeringRelationship", ["ApplicationProcess", "ApplicationFunction"]),
       ("AssociationRelationship", ["*"]) ]),
    ("DataObject",
     [ ("AccessRelationship",
        ["ApplicationComponent", "ApplicationFunction", "ApplicationProcess", "ApplicationService"]),
       ("RealizationRelationship", ["Artifact"]),
       ("CompositionRelationship", ["DataObject"]),
       ("AggregationRelationship", ["DataObject"]),
       ("AssociationRelationship", ["*"]) ]),
    ("Node",
     [ ("RealizationRelationship", ["TechnologyService"]),
       ("AssignmentRelationship", ["SystemSoftware", "Artifact", "Device"]),
       ("CompositionRelationship", ["Node", "Device", "SystemSoftware"]),
       ("AggregationRelationship", ["Node", "Device", "SystemSoftware"]),
       ("AssociationRelationship", ["*"]) ]),
    ("Device",
     [ ("RealizationRelationship", ["TechnologyService"]),
       ("AssignmentRelationship", ["SystemSoftware", "Artifact"]),
       ("CompositionRelationship", ["Device"]),
       ("AggregationRelationship", ["Device"]),
       ("AssociationRelationship", ["*"]) ]),
    ("SystemSoftware",
     [ ("RealizationRelationship", ["TechnologyService"]),
       ("AssignmentRelationship", ["Node", "Device"]),
       ("CompositionRelationship", ["SystemSoftware"]),
       ("AggregationRelationship", ["SystemSoftware"]),
       ("AssociationRelationship", ["*"]) ]),
    ("TechnologyInterface",
     [ ("ServingRelationship", ["ApplicationComponent", "Node", "Device"]),
       ("AssignmentRelationship", ["TechnologyService"]),
       ("CompositionRelationship", ["Node", "Device"]),
       ("AssociationRelationship", ["*"]) ]),
    ("TechnologyService",
     [ ("ServingRelationship", ["ApplicationComponent", "ApplicationService", "Node", "Device"]),
       ("RealizationRelationship", ["Node", "Device", "SystemSoftware"]),
       ("CompositionRelationship", ["TechnologyService"]),
       ("AggregationRelationship", ["TechnologyService"]),
       ("AssociationRelationship", ["*"]),
       ("SpecializationRelationship", ["TechnologyService"]) ]),
    ("Artifact",
     [ ("AssignmentRelationship", ["Node", "Device"]),
       ("RealizationRelationship", ["DataObject"]),
       ("AssociationRelationship", ["*"]) ]),
    ("WorkPackage",
     [ ("RealizationRelationship", ["Deliverable"]),
       ("CompositionRelationship", ["WorkPackage"]),
       ("AggregationRelationship", ["WorkPackage"]),
       ("AssociationRelationship", ["*"]) ]),
    ("Deliverable",
     [ ("RealizationRelationship", ["Artifact", "BusinessObject", "DataObject"]),
       ("CompositionRelationship", ["Deliverable"]),
       ("AggregationRelationship", ["Deliverable"]),
       ("AssociationRelationship", ["*"]) ]),
    ("Plateau",
     [ ("CompositionRelationship", ["Plateau"]),
       ("AggregationRelationship", ["Plateau"]),
       ("AssociationRelationship", ["*"]) ]),
    ("*",
     [ ("AssociationRelationship", ["*"]),
       ("SpecializationRelationship", ["*"]) ]) ]

/-! ## `is_relationship_allowed` (`8.3.py` lines 674–697) -/

/-- Embeds `ArchimateEditor.is_relationship_allowed`: strip namespace
prefixes, look up the source type's rule table (falling back to the `"*"`
default entry), reject if the relationship type is absent, otherwise
accept iff the target set holds `"*"` or contains the target type. -/
def is_relationship_allowed (source_type target_type relationship_type : String) : Bool :=
  let source_type := strip_ns source_type
  let target_type := strip_ns target_type
  let relationship_type := strip_ns relationship_type
  let rules := match lookup_str RELATIONSHIP_RULES source_type with
    | some r => r
    | none => (lookup_str RELATIONSHIP_RULES "*").getD []
  match lookup_str rules relationship_type with
  | none => false
  | some allowed_targets =>
      if allowed_targets.contains "*" then true
      else allowed_targets.contains target_type

/-- The lookup procedure exactly as claim C2 words it: look up
`sourceType`'s table (or the `"*"` default), return false when `relType`
is absent, else true iff `targetType` is in the allowed set or that set
contains the wildcard. -/
def claim_is_allowed (sourceType targetType relType : String) : Bool :=
  let table := match lookup_str RELATIONSHIP_RULES sourceType with
    | some t => t
    | none => (lookup_str RELATIONSHIP_RULES "*").getD []
  match lookup_str table relType with
  | none => false
  | some allowed => allowed.contains targetType || allowed.contains "*"

/-! ## Relationship repair (`8.3.py` lines 809–876) -/

/-- `ArchimateEditor.RELATIONSHIP_FIX_PRIORITY`, scanned from
least- to most-structurally-binding. -/
def RELATIONSHIP_FIX_PRIORITY : List String :=
  [ "AssociationRelationship", "InfluenceRelationship", "ServingRelationship",
    "UsedByRelationship", "AccessRelationship", "FlowRelationship",
    "TriggeringRelationship", "RealizationRelationship", "AssignmentRelationship",
    "SpecializationRelationship", "CompositionRelationship", "AggregationRelationship" ]

/-- Embeds `_find_alternative_relationship`: every relationship type valid
from `source_type` to `target_type`, collected first from the source
type's own rule table (no `"*"` fallback here — a missing entry yields the
empty dict) and then, skipping types already collected, from the `"*"`
default table. -/
def find_alternative_relationship (source_type target_type : String) : List String :=
  ((lookup_str RELATIONSHIP_RULES "*").getD []).foldl
    (fun acc p =>
      if !acc.contains p.1 && (p.2.contains "*" || p.2.contains (strip_ns target_type))
      then acc ++ [p.1] else acc)
    (((lookup_str RELATIONSHIP_RULES (strip_ns source_type)).getD []).foldl
      (fun acc p =>
        if p.2.contains "*" || p.2.contains (strip_ns target_type) then acc ++ [p.1] else acc)
      [])

/-- One `<element>` node of the `.archimate` XML document: both ArchiMate
elements and relationships are stored this way (a relationship is an
element whose `xsi:type` ends in `"Relationship"`, carrying `source` and
`target` attributes).  Absent attributes are `none` / `""`. -/
structure Entity where
  id : String
  xsiType : String
  name : String := ""
  source : Option String := none
  target : Option String := none
deriving DecidableEq, Repr

/-- The flattened model: the `<element>` nodes of all folders in document
order.  (Folder boundaries are irrelevant to validation and repair, which
search with `.//element` / `.//*`.) -/
abbrev ArchiModel := List Entity

/-- Embeds `find_element_by_id` (`self.model.find(f".//*[@id='{el_id}']")`):
the first entity carrying the id. -/
def find_element_by_id (m : ArchiModel) (el_id : Option String) : Option Entity :=
  match el_id with
  | none => none
  | some i => m.find? (fun e => e.id = i)

/-- An entity is a relationship iff its type ends with `"Relationship"`
(the `find_all_relationships` test). -/
def is_relationship_entity (e : Entity) : Bool :=
  str_endswith e.xsiType "Relationship"

/-- Outcome of processing one incompatible relationship. -/
inductive RepairAction where
  | reversed
  | retyped (new_type : String)
  | reversed_retyped (new_type : String)
  | removed
deriving DecidableEq, Repr

/-- Embeds `_attempt_to_fix_relationship`: attempt direction reversal,
then a same-direction type substitution scanning
`RELATIONSHIP_FIX_PRIORITY`, then a reversed-direction substitution;
`none` (no fix) when all three fail or an endpoint cannot be found.
Returns the rewritten relationship together with the action taken. -/
def attempt_to_fix_relationship (m : ArchiModel) (rel : Entity) :
    Option (Entity × RepairAction) :=
  match find_element_by_id m rel.source, find_element_by_id m rel.target with
  | some source_el, some target_el =>
    let source_type := source_el.xsiType
    let target_type := target_el.xsiType
    let original_rel_type := rel.xsiType
    if is_relationship_allowed target_type source_type original_rel_type then
      some ({ rel with source := some target_el.id, target := some source_el.id },
            RepairAction.reversed)
    else
      let valid_rels_same_dir := find_alternative_relationship source_type target_type
      match RELATIONSHIP_FIX_PRIORITY.find? (fun best_rel => valid_rels_same_dir.contains best_rel) with
      | some best_rel =>
          some ({ rel with xsiType := "archimate:" ++ best_rel }, RepairAction.retyped best_rel)
      | none =>
        let valid_rels_rev_dir := find_alternative_relationship target_type source_type
        match RELATIONSHIP_FIX_PRIORITY.find? (fun best_rel => valid_rels_rev_dir.contains best_rel) with
        | some best_rel =>
            some ({ rel with source := some target_el.id, target := some source_el.id,
                             xsiType := "archimate:" ++ best_rel },
                  RepairAction.reversed_retyped best_rel)
        | none => none
  | _, _ => none

/-- The strict-order repair decision exactly as claim C1 words it:
(1) reverse when the original type is allowed from target to source;
(2) else retype to the first priority-list type valid for
(sourceType, targetType); (3) else the same for (targetType, sourceType),
also swapping; (4) else delete. -/
def claim_fix_order (sourceType targetType relType : String) : RepairAction :=
  if is_relationship_allowed targetType sourceType relType then RepairAction.reversed
  else
    match RELATIONSHIP_FIX_PRIORITY.find?
        (fun rt => is_relationship_allowed sourceType targetType rt) with
    | some rt => RepairAction.retyped rt
    | none =>
      match RELATIONSHIP_FIX_PRIORITY.find?
          (fun rt => is_relationship_allowed targetType sourceType rt) with
      | some rt => RepairAction.reversed_retyped rt
      | none => RepairAction.removed

/-- How each repair action rewrites the relationship entity
(`delete` yields `none`). -/
def apply_claim_action (rel source_el target_el : Entity) : RepairAction → Option Entity
  | RepairAction.reversed =>
      some { rel with source := some target_el.id, target := some source_el.id }
  | RepairAction.retyped t => some { rel with xsiType := "archimate:" ++ t }
  | RepairAction.reversed_retyped t =>
      some { rel with source := some target_el.id, target := some source_el.id,
                      xsiType := "archimate:" ++ t }
  | RepairAction.removed => none

/-! ## Cleanup pipeline (`validate_and_clean_relationships`, `8.3.py` lines 891–1027) -/

/-- Embeds `find_all_relationships`: the relationship entities in
document order. -/
def find_all_relationships (m : ArchiModel) : List Entity :=
  m.filter (fun e => is_relationship_entity e)

/-- `valid_ids`: ids of every `<element>` node (including relationship
elements), captured once before the orphan pass and not refreshed. -/
def all_ids (m : ArchiModel) : List String := m.map (fun e => e.id)

/-- Membership of an optional id attribute in the valid-id set (an absent
attribute is never valid, matching `None not in valid_ids`). -/
def endpoint_ok (ids : List String) : Option String → Bool
  | some s => ids.contains s
  | none => false

/-- Step 1 (removed side): relationships with a dangling endpoint. -/
def orphaned_relationships (m : ArchiModel) : List Entity :=
  (find_all_relationships m).filter
    (fun r => !(endpoint_ok (all_ids m) r.source && endpoint_ok (all_ids m) r.target))

/-- Step 1 (kept side): relationships whose two endpoint ids exist. -/
def orphan_free_relationships (m : ArchiModel) : List Entity :=
  (find_all_relationships m).filter
    (fun r => endpoint_ok (all_ids m) r.source && endpoint_ok (all_ids m) r.target)

/-- The duplicate key: the `(source_id, target_id, full_type)` triple. -/
def rel_tuple (e : Entity) : Option String × Option String × String :=
  (e.source, e.target, e.xsiType)

/-- Step 2: one pass with a seen-set; a relationship whose triple was
already seen is removed, the first occurrence is kept.  Returns
`(kept, removed)`. -/
def remove_duplicates :
    List Entity → List (Option String × Option String × String) → List Entity × List Entity
  | [], _ => ([], [])
  | r :: rest, seen =>
    if seen.contains (rel_tuple r) then
      ((remove_duplicates rest seen).1, r :: (remove_duplicates rest seen).2)
    else
      (r :: (remove_duplicates rest (rel_tuple r :: seen)).1,
       (remove_duplicates rest (rel_tuple r :: seen)).2)

/-- The non-relationship entities of the model (never touched by
steps 1–3). -/
def non_relationship_entities (m : ArchiModel) : List Entity :=
  m.filter (fun e => !is_relationship_entity e)

/-- Step 3: the fix loop.  `base` holds the non-relationship entities,
`done` the processed relationships (with fixes applied in place),
`pending` the rest; id lookups run against the whole current document,
as `self.find_element_by_id` does.  A relationship failing
`is_relationship_allowed` is repaired via `attempt_to_fix_relationship`
or, failing that, removed into the unfixable log.  `.error
.attributeError` embeds the `source_el.get(...)`-on-`None` crash that
occurs when an endpoint id vanished between the (stale) orphan check and
this pass. -/
def fix_loop (base : List Entity) :
    List Entity → List Entity → List (Entity × RepairAction) → List Entity →
      Except PyError (List Entity × List (Entity × RepairAction) × List Entity)
  | [], done, fixed, unfix => .ok (done, fixed, unfix)
  | rel :: rest, done, fixed, unfix =>
    let cur := base ++ done ++ (rel :: rest)
    match find_element_by_id cur rel.source, find_element_by_id cur rel.target with
    | some source_el, some target_el =>
      if is_relationship_allowed source_el.xsiType target_el.xsiType rel.xsiType then
        fix_loop base rest (done ++ [rel]) fixed unfix
      else
        match attempt_to_fix_relationship cur rel with
        | some (rel', act) => fix_loop base rest (done ++ [rel']) (fixed ++ [(rel', act)]) unfix
        | none => fix_loop base rest done fixed (unfix ++ [rel])
    | _, _ => Except.error PyError.attributeError

/-- Result of one full cleanup pass: the cleaned model plus the four
action logs (orphans removed, duplicates removed, fixes applied,
unfixable removed). -/
structure CleanupResult where
  model : ArchiModel
  orphans_removed : List Entity
  duplicates_removed : List Entity
  fixed : List (Entity × RepairAction)
  unfixable_removed : List Entity
deriving DecidableEq, Repr

/-- Embeds steps 1–3 of `validate_and_clean_relationships`: orphan
removal (checked against the ids captured before any removal), duplicate
removal, then the repair loop with deletion of unfixable relationships.
(Step 0, the `Other`-folder tidy-up, concerns folder placement, which the
flattened model abstracts away; it is the identity on a model whose
`other` folder is empty.)  The cleaned model keeps the non-relationship
entities and the surviving relationships. -/
def validate_and_clean_relationships (m : ArchiModel) : Except PyError CleanupResult :=
  match fix_loop (non_relationship_entities m)
      (remove_duplicates (orphan_free_relationships m) []).1 [] [] [] with
  | .ok (survivors, fixed, unfix) =>
      .ok ⟨non_relationship_entities m ++ survivors,
           orphaned_relationships m,
           (remove_duplicates (orphan_free_relationships m) []).2,
           fixed, unfix⟩
  | .error e => .error e

/-- The three validation passes run read-only: orphaned relationships,
then duplicates among the orphan-free ones, then `is_relationship_allowed`
failures among the remainder — the detection logic of the cleanup pass
without its mutations. -/
def validation_passes (m : ArchiModel) : List Entity × List Entity × List Entity :=
  (orphaned_relationships m,
   (remove_duplicates (orphan_free_relationships m) []).2,
   (remove_duplicates (orphan_free_relationships m) []).1.filter (fun r =>
     match find_element_by_id m r.source, find_element_by_id m r.target with
     | some se, some te => !is_relationship_allowed se.xsiType te.xsiType r.xsiType
     | _, _ => false))

/-! ### A concrete model exercising the repair pass -/

def goal_A : Entity := { id := "A", xsiType := "archimate:Goal", name := "A" }

def goal_B : Entity := { id := "B", xsiType := "archimate:Goal", name := "B" }

/-- A valid Association `A → B`. -/
def rel_assoc_AB : Entity :=
  { id := "r1", xsiType := "archimate:AssociationRelationship",
    source := some "A", target := some "B" }

/-- An invalid Realization `A → B` (Goal-to-Goal Realization is not in the
rules). -/
def rel_realize_AB : Entity :=
  { id := "r2", xsiType := "archimate:RealizationRelationship",
    source := some "A", target := some "B" }

/-- Two `Goal`s, one valid Association `A → B`, one invalid Realization
`A → B`. -/
def demo_model : ArchiModel := [goal_A, goal_B, rel_assoc_AB, rel_realize_AB]

/-- What the repair pass turns the invalid Realization into. -/
def demo_retyped_r2 : Entity :=
  { rel_realize_AB with xsiType := "archimate:AssociationRelationship" }

/-- The cleanup result on `demo_model`: nothing orphaned, nothing
duplicated, the Realization retyped to a second Association `A → B`. -/
def demo_cleaned : CleanupResult :=
  ⟨[goal_A, goal_B, rel_assoc_AB, demo_retyped_r2], [], [],
   [(demo_retyped_r2, RepairAction.retyped "AssociationRelationship")], []⟩

/-- Precondition on a relationship entering the fix loop: it is a
relationship entity and both endpoints resolve among the
non-relationship entities (`base`). -/
def pending_ok (base : List Entity) (r : Entity) : Prop :=
  is_relationship_entity r = true ∧
  (∃ se, find_element_by_id base r.source = some se) ∧
  (∃ te, find_element_by_id base r.target = some te)

/-- Invariant of relationships surviving the fix loop: still a
relationship entity, both endpoints resolving among the non-relationship
entities, and type-compatible for the resolved endpoint types. -/
def surviving_ok (base : List Entity) (s : Entity) : Prop :=
  is_relationship_entity s = true ∧
  ∃ se te, find_element_by_id base s.source = some se ∧
           find_element_by_id base s.target = some te ∧
           is_relationship_allowed se.xsiType te.xsiType s.xsiType = true

/-- Decidable equality for `Except` values (not provided by the core
library), used to state concrete runs of fallible operations. -/
instance instDecidableEqExcept {ε α : Type} [DecidableEq ε] [DecidableEq α] :
    DecidableEq (Except ε α)
  | .error e, .error e' =>
      if h : e = e' then .isTrue (by rw [h]) else .isFalse (fun hc => h (by injection hc))
  | .error _, .ok _ => .isFalse (fun hc => by injection hc)
  | .ok _, .error _ => .isFalse (fun hc => by injection hc)
  | .ok a, .ok a' =>
      if h : a = a' then .isTrue (by rw [h]) else .isFalse (fun hc => h (by injection hc))

/-! ## Impact propagation (`Modeller.py` lines 1360–1410)

`EnhancedArchimateModel` keeps `elements` as a dict id → `ArchimateElement`;
each element carries `relationships["out"]` / `["in"]` reference lists
built by `_build_relationship_references`. -/

/-- One entry of `relationships["out"]` / `["in"]`: `other` is the entry's
`target` id for an outgoing reference and its `source` id for an incoming
one (the code reads `rel.get("target") if "target" in rel else
rel.get("source")`). -/
structure MRel where
  id : String
  type : String
  other : String
deriving DecidableEq, Repr

/-- An `ArchimateElement` (the fields `calculate_impact` reads). -/
structure MElement where
  id : String
  etype : String := ""
  rels_out : List MRel := []
  rels_in : List MRel := []
deriving DecidableEq, Repr

/-- `EnhancedArchimateModel.elements` as an insertion-ordered list with
unique ids (Python dict semantics); lookups take the first match. -/
structure MModel where
  elements : List MElement
deriving DecidableEq, Repr

/-- `self.model.elements[i]` membership/lookup. -/
def melement_find (m : MModel) (i : String) : Option MElement :=
  m.elements.find? (fun e => e.id = i)

/-- The `weights` dict of `get_relationship_weight`, in insertion order
(0.8, 0.9, 0.7, 0.85, 0.75, 0.6 as exact rationals). -/
def IMPACT_WEIGHTS : List (String × ℚ) :=
  [ ("influencerelationship", 4/5), ("realizationrelationship", 9/10),
    ("servingrelationship", 7/10), ("triggeringrelationship", 17/20),
    ("assignmentrelationship", 3/4), ("accessrelationship", 3/5) ]

/-- Embeds `get_relationship_weight`: the first dict key occurring as a
substring of the (already lowercased) relationship type, else the 0.5
default. -/
def get_relationship_weight (rel_type : String) : ℚ :=
  match IMPACT_WEIGHTS.find? (fun p => str_has_sub rel_type p.1) with
  | some p => p.2
  | none => 1/2

/-- Python dict update `d[k] = v`: replace the first binding or append a
new one. -/
def dict_set : List (String × ℚ) → String → ℚ → List (String × ℚ)
  | [], k, v => [(k, v)]
  | (k0, v0) :: rest, k, v =>
      if k0 = k then (k, v) :: rest else (k0, v0) :: dict_set rest k v

/-- Python dict read `d[k]` where the source guarantees the key exists
(scores are initialised for every element id). -/
def dict_get (d : List (String × ℚ)) (k : String) : ℚ :=
  (lookup_str d k).getD 0

/-- The inner relationship loop of `calculate_impact` (`for rel in
element.relationships["out"] + element.relationships["in"]`): for each
entry whose other endpoint is an element, compute
`propagated = strength * weight * 0.7` — one formula for both directions
— and, when it beats the endpoint's current score, write it and queue the
endpoint. -/
def propagate_rels (m : MModel) (strength : ℚ) :
    List MRel → List (String × ℚ) → List (String × ℚ) →
      List (String × ℚ) × List (String × ℚ)
  | [], scores, adds => (scores, adds)
  | r :: rest, scores, adds =>
      if (melement_find m r.other).isSome then
        let weight := get_relationship_weight (str_lower r.type)
        let propagated := strength * weight * (7/10)
        if propagated > dict_get scores r.other then
          propagate_rels m strength rest (dict_set scores r.other propagated)
            (adds ++ [(r.other, propagated)])
        else
          propagate_rels m strength rest scores adds
      else
        propagate_rels m strength rest scores adds

/-- The `while queue` loop of `calculate_impact`, one unit of fuel per
dequeue.  `.error .keyError` embeds the unguarded
`self.model.elements[current_id]` access.  `calculate_impact` supplies
fuel sufficient for the queue to drain (each element is visited at most
once and enqueues at most its reference count). -/
def calculate_impact_go (m : MModel) :
    Nat → List String → List (String × ℚ) → List (String × ℚ) →
      Except PyError (List (String × ℚ))
  | 0, _, _, scores => .ok scores
  | _ + 1, _, [], scores => .ok scores
  | fuel + 1, visited, (current_id, strength) :: rest, scores =>
      if visited.contains current_id || strength < 1/100 then
        calculate_impact_go m fuel visited rest scores
      else
        match melement_find m current_id with
        | none => Except.error PyError.keyError
        | some element =>
            let step := propagate_rels m strength (element.rels_out ++ element.rels_in) scores []
            calculate_impact_go m fuel (current_id :: visited) (rest ++ step.2) step.1

/-- Fuel bound: one initial queue entry, plus at most one enqueue per
relationship reference, plus slack. -/
def impact_fuel (m : MModel) : Nat :=
  (m.elements.map (fun e => e.rels_out.length + e.rels_in.length)).sum + m.elements.length + 1

/-- Embeds `calculate_impact` with focused element `focused`: `{}` when
nothing is focused, else scores initialised to 0.0 everywhere and 1.0 at
the seed, then the weighted breadth-first propagation. -/
def calculate_impact (m : MModel) (focused : String) :
    Except PyError (List (String × ℚ)) :=
  if focused = "" then .ok []
  else
    calculate_impact_go m (impact_fuel m) [] [(focused, 1)]
      (dict_set (m.elements.map (fun e => (e.id, (0 : ℚ)))) focused 1)

/-- The adjacency `calculate_impact` explores: from the element found for
`a`, the `other` endpoint of any outgoing or incoming reference. -/
def impact_adjacent (m : MModel) (a b : String) : Prop :=
  ∃ e, melement_find m a = some e ∧ b ∈ (e.rels_out ++ e.rels_in).map MRel.other

/-- Multi-hop reachability along `impact_adjacent`. -/
def impact_reachable (m : MModel) (a b : String) : Prop :=
  Relation.ReflTransGen (impact_adjacent m) a b

/-- Score-dict invariant maintained by the propagation: seed pinned at
1.0, all scores within `[0,1]`, every element id present, and non-zero
scores only at reachable ids. -/
def impact_scores_inv (m : MModel) (f : String) (scores : List (String × ℚ)) : Prop :=
  lookup_str scores f = some 1 ∧
  (∀ k v, lookup_str scores k = some v → 0 ≤ v ∧ v ≤ 1) ∧
  (∀ k, k ∈ m.elements.map MElement.id → ∃ v, lookup_str scores k = some v) ∧
  (∀ k v, lookup_str scores k = some v → ¬ impact_reachable m f k → v = 0)

/-- Queue invariant: strengths within `[0,1]`, ids reachable from the
seed. -/
def impact_queue_inv (m : MModel) (f : String) (q : List (String × ℚ)) : Prop :=
  ∀ p ∈ q, 0 ≤ p.2 ∧ p.2 ≤ 1 ∧ impact_reachable m f p.1

/-- `X ⟵(Association)─ Y`, seen from the focused element `X`: the only
relationship is incoming at `X` (outgoing at `Y`). -/
def inbound_model : MModel :=
  ⟨[ { id := "X", etype := "Goal",
       rels_in := [⟨"r", "AssociationRelationship", "Y"⟩] },
     { id := "Y", etype := "Goal",
       rels_out := [⟨"r", "AssociationRelationship", "X"⟩] } ]⟩

/-- `X ─(Association)⟶ Y`: the mirror model, the relationship outgoing at
the focused element `X`. -/
def outbound_model : MModel :=
  ⟨[ { id := "X", etype := "Goal",
       rels_out := [⟨"r", "AssociationRelationship", "Y"⟩] },
     { id := "Y", etype := "Goal",
       rels_in := [⟨"r", "AssociationRelationship", "X"⟩] } ]⟩

/-- A one-element model (no relationships), for missing-seed runs. -/
def lone_x_model : MModel := ⟨[{ id := "X", etype := "Goal" }]⟩

/-! ## `networkx_analyzer.simulate_change_impact` (lines 85–121) and
`graphml_core.get_impact_analysis` (lines 386–416)

Both operate on a directed graph with weighted edges (`networkx`
`DiGraph`): at most one edge per ordered pair, each carrying its
`weight` attribute. -/

structure NXGraph where
  nodes : List String
  edges : List (String × String × ℚ)
deriving DecidableEq, Repr

/-- `self.graph.successors(u)`. -/
def nx_successors (g : NXGraph) (u : String) : List String :=
  (g.edges.filter (fun e => e.1 = u)).map (fun e => e.2.1)

/-- `self.graph[u][v].get('weight', 0.5)` (the edge exists whenever this
is reached; 0.5 covers a missing entry). -/
def nx_weight (g : NXGraph) (u v : String) : ℚ :=
  match g.edges.find? (fun e => e.1 = u ∧ e.2.1 = v) with
  | some e => e.2.2
  | none => 1/2

/-- One seed's BFS in `simulate_change_impact`: each visit stores
`max(existing, impact)` (or the impact when the node is new), then queues
`impact * weight * 0.7` to unvisited successors when above the 0.05
threshold. -/
def nx_bfs (g : NXGraph) :
    Nat → List String → List (String × ℚ) → List (String × ℚ) → List (String × ℚ)
  | 0, _, _, scores => scores
  | _ + 1, _, [], scores => scores
  | fuel + 1, visited, (current_node, current_impact) :: rest, scores =>
      if visited.contains current_node then
        nx_bfs g fuel visited rest scores
      else
        let scores' :=
          match lookup_str scores current_node with
          | some prev => dict_set scores current_node (max prev current_impact)
          | none => dict_set scores current_node current_impact
        let adds := (nx_successors g current_node).foldl
          (fun acc neighbor =>
            if visited.contains neighbor then acc
            else
              let new_impact := current_impact * nx_weight g current_node neighbor * (7/10)
              if new_impact > 1/20 then acc ++ [(neighbor, new_impact)] else acc) []
        nx_bfs g fuel (current_node :: visited) (rest ++ adds) scores'

/-- Fuel bound for the graph BFS loops. -/
def nx_fuel (g : NXGraph) : Nat := g.edges.length + g.nodes.length + 1

/-- Embeds `simulate_change_impact`: for each changed node in order, skip
it when absent from the graph, else propagate into the shared score
dict.  The default `impact_strength` is 0.8. -/
def simulate_change_impact (g : NXGraph) (changed_nodes : List String)
    (impact_strength : ℚ := 4/5) : List (String × ℚ) :=
  changed_nodes.foldl
    (fun impact_scores start_node =>
      if g.nodes.contains start_node then
        nx_bfs g (nx_fuel g) [] [(start_node, impact_strength)] impact_scores
      else impact_scores)
    []

/-- The depth-bounded BFS of `get_impact_analysis`: queue entries carry
`(node, depth, impact)`; a visit records the impact, successors get
`impact * weight * 0.8` above the 0.01 threshold at depth + 1. -/
def gml_bfs (g : NXGraph) (max_depth : Nat) :
    Nat → List String → List (String × Nat × ℚ) → List (String × ℚ) → List (String × ℚ)
  | 0, _, _, scores => scores
  | _ + 1, _, [], scores => scores
  | fuel + 1, visited, (current_node, depth, current_impact) :: rest, scores =>
      if visited.contains current_node || depth > max_depth then
        gml_bfs g max_depth fuel visited rest scores
      else
        let scores' := dict_set scores current_node current_impact
        let adds := (nx_successors g current_node).foldl
          (fun acc neighbor =>
            if visited.contains neighbor then acc
            else
              let new_impact := current_impact * nx_weight g current_node neighbor * (4/5)
              if new_impact > 1/100 then acc ++ [(neighbor, depth + 1, new_impact)] else acc) []
        gml_bfs g max_depth fuel (current_node :: visited) (rest ++ adds) scores'

/-- Embeds `get_impact_analysis`: the empty dict for a start node absent
from the graph, else the depth-bounded weighted BFS from
`(start_node, 0, 1.0)`. -/
def get_impact_analysis (g : NXGraph) (start_node : String) (max_depth : Nat := 3) :
    List (String × ℚ) :=
  if g.nodes.contains start_node then
    gml_bfs g max_depth (nx_fuel g) [] [(start_node, 0, 1)] []
  else []

/-- Two nodes, one edge `X → Y` of weight 0.5. -/
def nx_demo : NXGraph := ⟨["X", "Y"], [("X", "Y", 1/2)]⟩

/-! ## Autocomplete (`autocomplete_model_conservative`, `8.3.py`
lines 510–600; rule data from `config.AUTOCOMPLETE_RULES`) -/

/-- Python `s.replace("archimate:", "")` (all occurrences, scanning left
to right), written structurally on the ten characters of the pattern. -/
def remove_archimate_chars : List Char → List Char
  | [] => []
  | 'a' :: 'r' :: 'c' :: 'h' :: 'i' :: 'm' :: 'a' :: 't' :: 'e' :: ':' :: rest =>
      remove_archimate_chars rest
  | c :: rest => c :: remove_archimate_chars rest

/-- The `el_type_full.replace("archimate:", "")` type cleaning of the
autocomplete driver. -/
def str_replace_archimate (s : String) : String :=
  String.mk (remove_archimate_chars s.data)

/-- One condition of an autocomplete rule. -/
inductive AcCondition where
  | no_relationship_of_type (rel_types : List String)
  | name_similarity (threshold : ℚ)
  | target_name_contains (keywords : List String)
  | target_name_is_part_of_source (threshold : ℚ)
deriving DecidableEq, Repr

/-- Endpoint selector of a relationship blueprint
(`'source' | 'target' | 'intermediary'`). -/
inductive AcEndpoint where
  | source
  | target
  | intermediary
deriving DecidableEq, Repr

/-- One entry of an action's `create_relationships` list. -/
structure AcRelSpec where
  rel_type : String
  rel_source : AcEndpoint
  rel_target : AcEndpoint
deriving DecidableEq, Repr

/-- A rule action: optionally create an intermediary element (of the
given type, named `'{target_name} Interface'`), plus relationship
blueprints. -/
structure AcAction where
  create_element : Option String := none
  create_relationships : List AcRelSpec
deriving DecidableEq, Repr

/-- One autocomplete rule. -/
structure AcRule where
  name : String
  rule_type : String
  source_types : List String
  target_types : List String
  conditions : List AcCondition
  action : AcAction
deriving DecidableEq, Repr

/-- The full `config.AUTOCOMPLETE_RULES` list (lines 454–698). -/
def AUTOCOMPLETE_RULES : List AcRule :=
  [ { name := "Connect Goals to Business Capabilities that realize them",
      rule_type := "direct_relationship",
      source_types := ["Capability"], target_types := ["Goal"],
      conditions := [AcCondition.no_relationship_of_type
        ["RealizationRelationship", "InfluenceRelationship"]],
      action := { create_relationships :=
        [⟨"RealizationRelationship", AcEndpoint.source, AcEndpoint.target⟩] } },
    { name := "Connect Requirements to Business Services that fulfill them",
      rule_type := "direct_relationship",
      source_types := ["BusinessService"], target_types := ["Requirement"],
      conditions := [AcCondition.no_relationship_of_type ["RealizationRelationship"]],
      action := { create_relationships :=
        [⟨"RealizationRelationship", AcEndpoint.source, AcEndpoint.target⟩] } },
    { name := "Connect Drivers to Business Processes they influence",
      rule_type := "direct_relationship",
      source_types := ["Driver"], target_types := ["BusinessProcess"],
      conditions := [AcCondition.no_relationship_of_type ["InfluenceRelationship"]],
      action := { create_relationships :=
        [⟨"InfluenceRelationship", AcEndpoint.source, AcEndpoint.target⟩] } },
    { name := "Connect Business Services to Application Services that realize them",
      rule_type := "direct_relationship",
      source_types := ["ApplicationService"], target_types := ["BusinessService"],
      conditions := [AcCondition.no_relationship_of_type ["RealizationRelationship"],
        AcCondition.name_similarity (3/5)],
      action := { create_relationships :=
        [⟨"RealizationRelationship", AcEndpoint.source, AcEndpoint.target⟩] } },
    { name := "Connect Business Processes to Application Services that support them",
      rule_type := "direct_relationship",
      source_types := ["ApplicationService"], target_types := ["BusinessProcess"],
      conditions := [AcCondition.no_relationship_of_type ["ServingRelationship"],
        AcCondition.name_similarity (1/2)],
      action := { create_relationships :=
        [⟨"ServingRelationship", AcEndpoint.source, AcEndpoint.target⟩] } },
    { name := "Connect Business Objects to Data Objects that implement them",
      rule_type := "direct_relationship",
      source_types := ["DataObject"], target_types := ["BusinessObject"],
      conditions := [AcCondition.no_relationship_of_type ["RealizationRelationship"],
        AcCondition.name_similarity (7/10)],
      action := { create_relationships :=
        [⟨"RealizationRelationship", AcEndpoint.source, AcEndpoint.target⟩] } },
    { name := "Connect Application Components to Nodes that host them",
      rule_type := "direct_relationship",
      source_types := ["Node"], target_types := ["ApplicationComponent"],
      conditions := [AcCondition.no_relationship_of_type ["AssignmentRelationship"],
        AcCondition.name_similarity (2/5)],
      action := { create_relationships :=
        [⟨"AssignmentRelationship", AcEndpoint.source, AcEndpoint.target⟩] } },
    { name := "Connect Application Services to Technology Services that enable them",
      rule_type := "direct_relationship",
      source_types := ["TechnologyService"], target_types := ["ApplicationService"],
      conditions := [AcCondition.no_relationship_of_type ["ServingRelationship"],
        AcCondition.name_similarity (1/2)],
      action := { create_relationships :=
        [⟨"ServingRelationship", AcEndpoint.source, AcEndpoint.target⟩] } },
    { name := "Connect Data Objects to Artifacts that store them",
      rule_type := "direct_relationship",
      source_types := ["Artifact"], target_types := ["DataObject"],
      conditions := [AcCondition.no_relationship_of_type ["RealizationRelationship"],
        AcCondition.name_similarity (3/5)],
      action := { create_relationships :=
        [⟨"RealizationRelationship", AcEndpoint.source, AcEndpoint.target⟩] } },
    { name := "Add Application Interface between Business Actors and Application Services",
      rule_type := "insert_intermediary",
      source_types := ["BusinessActor", "BusinessRole"],
      target_types := ["ApplicationService"],
      conditions := [AcCondition.no_relationship_of_type
          ["ServingRelationship", "UsedByRelationship"],
        AcCondition.target_name_contains ["api", "portal", "gateway", "service", "interface"]],
      action := { create_element := some "ApplicationInterface",
                  create_relationships :=
                    [⟨"AssignmentRelationship", AcEndpoint.intermediary, AcEndpoint.target⟩,
                     ⟨"ServingRelationship", AcEndpoint.intermediary, AcEndpoint.source⟩] } },
    { name := "Add Technology Interface between Application Components and Technology Services",
      rule_type := "insert_intermediary",
      source_types := ["ApplicationComponent"], target_types := ["TechnologyService"],
      conditions := [AcCondition.no_relationship_of_type ["ServingRelationship"],
        AcCondition.target_name_contains ["api", "service", "interface", "gateway"]],
      action := { create_element := some "TechnologyInterface",
                  create_relationships :=
                    [⟨"AssignmentRelationship", AcEndpoint.intermediary, AcEndpoint.target⟩,
                     ⟨"ServingRelationship", AcEndpoint.intermediary, AcEndpoint.source⟩] } },
    { name := "Connect Capabilities to Value Streams they enable",
      rule_type := "direct_relationship",
      source_types := ["Capability"], target_types := ["ValueStream"],
      conditions := [AcCondition.no_relationship_of_type ["RealizationRelationship"]],
      action := { create_relationships :=
        [⟨"RealizationRelationship", AcEndpoint.source, AcEndpoint.target⟩] } },
    { name := "Connect Value Streams to Business Processes that implement them",
      rule_type := "direct_relationship",
      source_types := ["BusinessProcess"], target_types := ["ValueStream"],
      conditions := [AcCondition.no_relationship_of_type ["RealizationRelationship"],
        AcCondition.name_similarity (3/5)],
      action := { create_relationships :=
        [⟨"RealizationRelationship", AcEndpoint.source, AcEndpoint.target⟩] } },
    { name := "Compose Business Processes from sub-processes",
      rule_type := "direct_relationship",
      source_types := ["BusinessProcess"], target_types := ["BusinessProcess"],
      conditions := [AcCondition.no_relationship_of_type
          ["CompositionRelationship", "AggregationRelationship"],
        AcCondition.target_name_is_part_of_source (4/5)],
      action := { create_relationships :=
        [⟨"CompositionRelationship", AcEndpoint.source, AcEndpoint.target⟩] } },
    { name := "Compose Application Components from sub-components",
      rule_type := "direct_relationship",
      source_types := ["ApplicationComponent"], target_types := ["ApplicationComponent"],
      conditions := [AcCondition.no_relationship_of_type
          ["CompositionRelationship", "AggregationRelationship"],
        AcCondition.target_name_is_part_of_source (4/5)],
      action := { create_relationships :=
        [⟨"CompositionRelationship", AcEndpoint.source, AcEndpoint.target⟩] } } ]

/-- Elements eligible for pairing: non-empty id, name and type
(`if el_id and el_name and el_type`). -/
def eligible_elements (m : ArchiModel) : List Entity :=
  m.filter (fun e => !(e.id = "") && !(e.name = "") && !(e.xsiType = ""))

/-- The `elements_by_type` bucket for a cleaned type tag. -/
def elements_of_type (m : ArchiModel) (t : String) : List Entity :=
  (eligible_elements m).filter (fun e => str_replace_archimate e.xsiType = t)

/-- A rule's source pool (concatenation over its `source_types`). -/
def rule_sources (m : ArchiModel) (rule : AcRule) : List Entity :=
  rule.source_types.foldl (fun acc t => acc ++ elements_of_type m t) []

/-- A rule's target pool. -/
def rule_targets (m : ArchiModel) (rule : AcRule) : List Entity :=
  rule.target_types.foldl (fun acc t => acc ++ elements_of_type m t) []

/-- The candidate pairs of a rule, in enumeration order (`for source … for
target …`). -/
def rule_pairs (m : ArchiModel) (rule : AcRule) : List (Entity × Entity) :=
  ((rule_sources m rule).map (fun s => (rule_targets m rule).map (fun t => (s, t)))).flatten

/-- `total_iterations`: the pair count summed over all rules, computed
before the rule engine runs. -/
def autocomplete_pair_total (m : ArchiModel) : Nat :=
  (AUTOCOMPLETE_RULES.map
    (fun rule => (rule_sources m rule).length * (rule_targets m rule).length)).sum

/-- `self._evaluate_autocomplete_conditions` is defined nowhere in the
program: in Python, the attribute lookup raises `AttributeError` before
any evaluation happens. -/
def evaluate_autocomplete_conditions_missing : Except PyError Bool :=
  Except.error PyError.attributeError

/-- The pair loop of one rule as shipped: every enumerated pair first
calls the missing condition evaluator. -/
def autocomplete_pair_loop : List (Entity × Entity) → Except PyError Unit
  | [] => Except.ok ()
  | _ :: rest =>
      match evaluate_autocomplete_conditions_missing with
      | .error e => Except.error e
      | .ok _ => autocomplete_pair_loop rest

/-- The rule loop of `autocomplete_model_conservative` as shipped. -/
def autocomplete_rule_loop (m : ArchiModel) : List AcRule → Except PyError Unit
  | [] => Except.ok ()
  | rule :: rest =>
      match autocomplete_pair_loop (rule_pairs m rule) with
      | .error e => Except.error e
      | .ok () => autocomplete_rule_loop m rest

/-- Embeds `autocomplete_model_conservative` as shipped: return the model
unchanged when `total_iterations == 0`, else run the rule engine (whose
first evaluated pair raises `AttributeError`, leaving the model
unmodified; the `.ok` fallback is unreachable whenever a pair exists). -/
def autocomplete_model_conservative (m : ArchiModel) : Except PyError ArchiModel :=
  if autocomplete_pair_total m = 0 then Except.ok m
  else
    match autocomplete_rule_loop m AUTOCOMPLETE_RULES with
    | .error e => Except.error e
    | .ok () => Except.ok m

/-- Modelled from the spec: `_evaluate_autocomplete_conditions` is
missing from the program, so each predicate follows §4.4's wording —
"no existing relationship of these types between this pair" (either
direction between the two elements), "element names meet a similarity
threshold" (the similarity metric is unspecified and abstracted as the
parameter `sim`), the keyword test on the target name, and "target name
is a textual substring of source name" (both lowercased; the threshold is
unused by a pure substring test). -/
def eval_autocomplete_condition (sim : String → String → ℚ) (m : ArchiModel)
    (s t : Entity) : AcCondition → Bool
  | AcCondition.no_relationship_of_type ts =>
      !(m.any (fun r => is_relationship_entity r &&
          ((r.source = some s.id && r.target = some t.id) ||
           (r.source = some t.id && r.target = some s.id)) &&
          ts.contains (strip_ns r.xsiType)))
  | AcCondition.name_similarity threshold => decide (threshold ≤ sim s.name t.name)
  | AcCondition.target_name_contains kws =>
      kws.any (fun k => str_has_sub (str_lower t.name) k)
  | AcCondition.target_name_is_part_of_source _ =>
      str_has_sub (str_lower s.name) (str_lower t.name)

/-- All conditions of a rule, short-circuit conjunction. -/
def eval_autocomplete_conditions (sim : String → String → ℚ) (m : ArchiModel)
    (s t : Entity) (conds : List AcCondition) : Bool :=
  conds.all (eval_autocomplete_condition sim m s t)

/-- Resolution of a blueprint endpoint. -/
def resolve_endpoint (s t : Entity) (inter_id : String) : AcEndpoint → String
  | AcEndpoint.source => s.id
  | AcEndpoint.target => t.id
  | AcEndpoint.intermediary => inter_id

/-- The relationship a direct rule's blueprint creates for pair
`(s, t)` in a model of the given size. -/
def direct_created_rel (m : ArchiModel) (s t : Entity) (sp : AcRelSpec) : Entity :=
  { id := "autorel_" ++ String.mk (List.replicate m.length '|') ++ sp.rel_type,
    xsiType := "archimate:" ++ sp.rel_type,
    source := some (resolve_endpoint s t "" sp.rel_source),
    target := some (resolve_endpoint s t "" sp.rel_target) }

/-- The intermediary element an insertion rule creates. -/
def intermediary_element (m : ArchiModel) (t : Entity) (etype : String) : Entity :=
  { id := "autogen_" ++ String.mk (List.replicate m.length '|'),
    xsiType := "archimate:" ++ etype,
    name := t.name ++ " Interface" }

/-- One relationship of an insertion rule's blueprint. -/
def intermediary_rel (m : ArchiModel) (s t : Entity) (etype : String)
    (sp : AcRelSpec) : Entity :=
  { id := "autorel_" ++ String.mk (List.replicate m.length '|') ++ sp.rel_type,
    xsiType := "archimate:" ++ sp.rel_type,
    source := some (resolve_endpoint s t (intermediary_element m t etype).id sp.rel_source),
    target := some (resolve_endpoint s t (intermediary_element m t etype).id sp.rel_target) }

/-- Modelled from the spec: `_execute_autocomplete_action` is missing
from the program; per §4.4 an action creates a direct relationship, or an
intermediary element (named from the target: the `'{target_name}
Interface'` template of the rule table) plus its two relationships.
Fresh ids derive from the current entity count (§3: ids are unique and
assigned at creation); the unary suffix keeps runs kernel-computable.
Returns (new model, created elements, created relationships). -/
def execute_autocomplete_action (m : ArchiModel) (rule : AcRule) (s t : Entity) :
    ArchiModel × List Entity × List Entity :=
  match rule.action.create_element with
  | none =>
      (m ++ rule.action.create_relationships.map (direct_created_rel m s t), [],
       rule.action.create_relationships.map (direct_created_rel m s t))
  | some etype =>
      (m ++ intermediary_element m t etype ::
          rule.action.create_relationships.map (intermediary_rel m s t etype),
       [intermediary_element m t etype],
       rule.action.create_relationships.map (intermediary_rel m s t etype))

/-- Result of an autocomplete run: the enriched model plus the two
report lists. -/
structure AcReport where
  model : ArchiModel
  added_elements : List Entity
  added_relationships : List Entity
deriving DecidableEq, Repr

/-- Processing of one candidate pair: evaluate the conditions against the
evolving model; on success execute the action and log the additions. -/
def autocomplete_process_pair (sim : String → String → ℚ) (rule : AcRule)
    (acc : AcReport) (p : Entity × Entity) : AcReport :=
  if eval_autocomplete_conditions sim acc.model p.1 p.2 rule.conditions then
    match execute_autocomplete_action acc.model rule p.1 p.2 with
    | (m', els, rels) =>
        ⟨m', acc.added_elements ++ els, acc.added_relationships ++ rels⟩
  else acc

/-- The autocomplete engine with the two spec-modelled helpers plugged
into the shipped drive loop: rules in declared order, each over the
cartesian product of its pools — pools computed once from the initial
model, conditions evaluated against the evolving model. -/
def autocomplete_run (rules : List AcRule) (sim : String → String → ℚ)
    (m : ArchiModel) : AcReport :=
  rules.foldl (fun acc rule =>
    (rule_pairs m rule).foldl (autocomplete_process_pair sim rule) acc)
    ⟨m, [], []⟩

/-- The thirteen `direct_relationship` rules. -/
def direct_autocomplete_rules : List AcRule :=
  AUTOCOMPLETE_RULES.filter (fun r => r.rule_type = "direct_relationship")

/-- A direct rule blocks its own re-application: it creates no element,
and each relationship blueprint runs source → target with a type listed
in one of the rule's `no_relationship_of_type` conditions. -/
def rule_self_blocking (rule : AcRule) : Bool :=
  rule.action.create_element = none &&
  !rule.action.create_relationships.isEmpty &&
  rule.action.create_relationships.all (fun spec =>
    spec.rel_source = AcEndpoint.source && spec.rel_target = AcEndpoint.target &&
    str_endswith ("archimate:" ++ spec.rel_type) "Relationship" &&
    strip_ns ("archimate:" ++ spec.rel_type) = spec.rel_type &&
    rule.conditions.any (fun c =>
      match c with
      | AcCondition.no_relationship_of_type ts => ts.contains spec.rel_type
      | _ => false))

/-- A `BusinessActor` and an `ApplicationService` whose name holds the
keyword `api`: the candidate pair of the interface-insertion rule. -/
def ac_actor : Entity :=
  { id := "ba", xsiType := "archimate:BusinessActor", name := "Clerk" }

def ac_service : Entity :=
  { id := "as", xsiType := "archimate:ApplicationService", name := "Portal API" }

def ac_model : ArchiModel := [ac_actor, ac_service]

/-- A trivial similarity metric (never consulted by the rules that fire
on `ac_model`). -/
def zero_sim : String → String → ℚ := fun _ _ => 0

/-- A Capability and a Goal: one candidate pair for the first
autocomplete rule. -/
def ac_cap : Entity :=
  { id := "cap1", xsiType := "archimate:Capability", name := "Sales" }

def ac_goal : Entity :=
  { id := "goal1", xsiType := "archimate:Goal", name := "Growth" }

def ac_pair_model : ArchiModel := [ac_cap, ac_goal]

/-- A rule table maps `AssociationRelationship` to a target list
holding the wildcard. -/
def table_has_assoc_wildcard (t : List (String × List String)) : Bool :=
  match lookup_str t "AssociationRelationship" with
  | some ts => ts.contains "*"
  | none => false

/-- **C2.** `is_relationship_allowed` computes, on the namespace-stripped
type names, exactly the table lookup described by the claim: source-type
table with `"*"` fallback, false for an absent relationship type, and
otherwise membership-or-wildcard on the target set. -/
theorem is_relationship_allowed_eq_claim (s t r : String) :
    is_relationship_allowed s t r =
      claim_is_allowed (strip_ns s) (strip_ns t) (strip_ns r) := by
  unfold is_relationship_allowed claim_is_allowed
  cases h1 : lookup_str RELATIONSHIP_RULES (strip_ns s) with
  | none =>
      cases h2 : lookup_str ((lookup_str RELATIONSHIP_RULES "*").getD []) (strip_ns r) with
      | none => simp [h1, h2]
      | some allowed =>
          cases h3 : allowed.contains "*" <;> simp [h1, h2, h3, Bool.or_comm]
  | some table =>
      cases h2 : lookup_str table (strip_ns r) with
      | none => simp [h1, h2]
      | some allowed =>
          cases h3 : allowed.contains "*" <;> simp [h1, h2, h3, Bool.or_comm]

/-! ## Lemmas about the rule data and the repair scan -/

theorem lookup_str_mem {α : Type} :
    ∀ (l : List (String × α)) (k : String) (v : α),
      lookup_str l k = some v → (k, v) ∈ l := by
  intro l
  induction l with
  | nil => intro k v h; simp [lookup_str] at h
  | cons hd tl ih =>
      intro k v h
      obtain ⟨k0, v0⟩ := hd
      by_cases hk : k0 = k
      · subst hk
        simp [lookup_str] at h
        simp [h]
      · simp [lookup_str, hk] at h
        exact List.mem_cons_of_mem _ (ih k v h)

/-- Every source-type table of `RELATIONSHIP_RULES` (including the `"*"`
default) maps `AssociationRelationship` to a wildcard target list. -/
theorem rules_all_assoc_wildcard :
    RELATIONSHIP_RULES.all (fun p => table_has_assoc_wildcard p.2) = true := by decide

theorem default_rules_eval :
    (lookup_str RELATIONSHIP_RULES "*").getD [] =
      [("AssociationRelationship", ["*"]), ("SpecializationRelationship", ["*"])] := by decide

/-- `AssociationRelationship` (with or without namespace prefix) is
allowed from any source to any target: every table (explicit or default)
carries it with a wildcard target. -/
theorem is_allowed_assoc (s t r : String)
    (hstrip : strip_ns r = "AssociationRelationship") :
    is_relationship_allowed s t r = true := by
  unfold is_relationship_allowed
  cases h1 : lookup_str RELATIONSHIP_RULES (strip_ns s) with
  | none =>
      simp only [h1, hstrip, default_rules_eval]
      simp [lookup_str]
  | some table =>
      have hmem : (strip_ns s, table) ∈ RELATIONSHIP_RULES := lookup_str_mem _ _ _ h1
      have hw : table_has_assoc_wildcard table = true := by
        have := List.all_eq_true.mp rules_all_assoc_wildcard _ hmem
        exact this
      unfold table_has_assoc_wildcard at hw
      cases h2 : lookup_str table "AssociationRelationship" with
      | none => rw [h2] at hw; cases hw
      | some ts =>
          rw [h2] at hw
          simp at hw
          simp [h1, hstrip, h2]
          exact Or.inl hw

/-- Folding the default table into any accumulator leaves (or puts)
`AssociationRelationship` in the result. -/
theorem assoc_mem_foldl_default (t' : String) (acc : List String) :
    "AssociationRelationship" ∈
      (([("AssociationRelationship", ["*"]), ("SpecializationRelationship", ["*"])] :
          List (String × List String)).foldl
        (fun acc p =>
          if !acc.contains p.1 && (p.2.contains "*" || p.2.contains t')
          then acc ++ [p.1] else acc) acc) := by
  simp only [List.foldl_cons, List.foldl_nil]
  by_cases h : acc.contains "AssociationRelationship" = true
  · split <;> split <;> simp_all
  · split <;> split <;> simp_all

/-- The alternative-relationship search always yields a set containing
`AssociationRelationship` (the default table contributes it when the
source table did not). -/
theorem assoc_mem_find_alternative (s t : String) :
    "AssociationRelationship" ∈ find_alternative_relationship s t := by
  unfold find_alternative_relationship
  rw [default_rules_eval]
  exact assoc_mem_foldl_default (strip_ns t) _

/-- `find?` over the priority list returns its head whenever the
predicate accepts `AssociationRelationship`. -/
theorem find_priority_first {p : String → Bool}
    (h : p "AssociationRelationship" = true) :
    RELATIONSHIP_FIX_PRIORITY.find? p = some "AssociationRelationship" := by
  rw [show RELATIONSHIP_FIX_PRIORITY = "AssociationRelationship" ::
        RELATIONSHIP_FIX_PRIORITY.tail from rfl]
  exact List.find?_cons_of_pos _ h

/-- Core equivalence: with both endpoints found, `_attempt_to_fix_relationship`
realises exactly the claim-side strict-order decision. -/
theorem attempt_to_fix_eq_claim (m : ArchiModel) (rel source_el target_el : Entity)
    (hs : find_element_by_id m rel.source = some source_el)
    (ht : find_element_by_id m rel.target = some target_el) :
    attempt_to_fix_relationship m rel =
      (apply_claim_action rel source_el target_el
          (claim_fix_order source_el.xsiType target_el.xsiType rel.xsiType)).map
        (fun e => (e, claim_fix_order source_el.xsiType target_el.xsiType rel.xsiType)) := by
  unfold attempt_to_fix_relationship claim_fix_order
  rw [hs, ht]
  cases h1 : is_relationship_allowed target_el.xsiType source_el.xsiType rel.xsiType with
  | true => simp [h1, apply_claim_action]
  | false =>
      have hmem1 : "AssociationRelationship" ∈
          find_alternative_relationship source_el.xsiType target_el.xsiType :=
        assoc_mem_find_alternative _ _
      have hmem2 := is_allowed_assoc source_el.xsiType target_el.xsiType
        "AssociationRelationship" (by decide)
      simp [h1, apply_claim_action, find_priority_first, hmem1, hmem2]

/-- The claim-side decision never deletes and, failing reversal, always
retypes to `AssociationRelationship`. -/
theorem claim_fix_order_cases (s t o : String) :
    claim_fix_order s t o = RepairAction.reversed ∨
      claim_fix_order s t o = RepairAction.retyped "AssociationRelationship" := by
  unfold claim_fix_order
  cases h : is_relationship_allowed t s o with
  | true => left; simp [h]
  | false =>
      right
      have hmem := is_allowed_assoc s t "AssociationRelationship" (by decide)
      simp [h, find_priority_first, hmem]

/-- **C1.** For an incompatible relationship whose source and target are
found, the repair procedure is extensionally the strict-order procedure of
the claim: reverse if the original type is allowed from target to source;
else retype to the first priority-list type valid for (source, target);
else retype-and-reverse for (target, source); else delete (`none`) —
exactly one outcome per relationship. -/
theorem repair_strict_order (m : ArchiModel) (rel source_el target_el : Entity)
    (hs : find_element_by_id m rel.source = some source_el)
    (ht : find_element_by_id m rel.target = some target_el) :
    attempt_to_fix_relationship m rel =
      (apply_claim_action rel source_el target_el
          (claim_fix_order source_el.xsiType target_el.xsiType rel.xsiType)).map
        (fun e => (e, claim_fix_order source_el.xsiType target_el.xsiType rel.xsiType)) :=
  attempt_to_fix_eq_claim m rel source_el target_el hs ht

/-- Witness for `repair_strict_order`: in the demo model both endpoints
of the Goal→Goal Realization resolve, and the repair follows the claimed
attempt order at that relationship. -/
theorem repair_strict_order_witness :
    find_element_by_id demo_model rel_realize_AB.source = some goal_A ∧
    find_element_by_id demo_model rel_realize_AB.target = some goal_B ∧
    attempt_to_fix_relationship demo_model rel_realize_AB =
      (apply_claim_action rel_realize_AB goal_A goal_B
          (claim_fix_order goal_A.xsiType goal_B.xsiType rel_realize_AB.xsiType)).map
        (fun e => (e, claim_fix_order goal_A.xsiType goal_B.xsiType rel_realize_AB.xsiType)) :=
  ⟨by decide, by decide,
    repair_strict_order demo_model rel_realize_AB goal_A goal_B (by decide) (by decide)⟩

/-! ## The duplicate-removal pass: uniqueness of surviving triples -/

theorem remove_duplicates_spec :
    ∀ (l : List Entity) (seen : List (Option String × Option String × String)),
      (((remove_duplicates l seen).1).map rel_tuple).Nodup ∧
      (∀ e ∈ (remove_duplicates l seen).1, rel_tuple e ∉ seen) := by
  intro l
  induction l with
  | nil => intro seen; simp [remove_duplicates]
  | cons r rest ih =>
      intro seen
      by_cases hc : rel_tuple r ∈ seen
      · simpa [remove_duplicates, hc] using ih seen
      · have hrec := ih (rel_tuple r :: seen)
        simp only [remove_duplicates]
        rw [if_neg (by simpa using hc)]
        constructor
        · refine List.nodup_cons.mpr ⟨?_, hrec.1⟩
          intro hmem
          obtain ⟨e, he, htup⟩ := List.mem_map.mp hmem
          have := hrec.2 e he
          simp [htup] at this
        · intro e he
          rcases List.mem_cons.mp he with h | h
          · subst h
            exact hc
          · have := hrec.2 e h
            intro hseen
            exact this (List.mem_cons_of_mem _ hseen)

/-- **C4 counterexample.** Running the full cleanup pass on `demo_model`
leaves two surviving relationships with the same `(source, target, type)`
triple: the repair step retyped the invalid Realization `A → B` into a
second Association `A → B` after duplicate removal had already run. -/
theorem cleanup_uniqueness_fails_on_demo :
    validate_and_clean_relationships demo_model = .ok demo_cleaned ∧
      ¬ ((find_all_relationships demo_cleaned.model).map rel_tuple).Nodup := by
  constructor
  · rfl
  · decide

/-- **C4 amended.** Uniqueness of `(source, target, type)` triples does
hold at the end of the duplicate-removal step, for every model; the claim
fails only because the repair step runs afterwards and may retype or
reverse a relationship into a triple that duplicates a surviving one. -/
theorem duplicate_step_unique (m : ArchiModel) :
    (((remove_duplicates (orphan_free_relationships m) []).1).map rel_tuple).Nodup :=
  (remove_duplicates_spec (orphan_free_relationships m) []).1

/-- **C3 counterexample.** On `demo_model` the cleanup pass runs to
completion, yet re-running the validation passes does not yield three
empty lists: the duplicate pass flags the retyped relationship. -/
theorem cleanup_not_idempotent_on_demo :
    validate_and_clean_relationships demo_model = .ok demo_cleaned ∧
      validation_passes demo_cleaned.model = ([], [demo_retyped_r2], []) ∧
      ([demo_retyped_r2] : List Entity) ≠ [] := by
  refine ⟨by rfl, by rfl, by decide⟩

/-! ## The fix loop never reaches the unfixable branch -/

/-- With both endpoints found, `_attempt_to_fix_relationship` always
returns a fix (attempt 2 can always retype to `AssociationRelationship`). -/
theorem attempt_to_fix_isSome (m : ArchiModel) (rel source_el target_el : Entity)
    (hs : find_element_by_id m rel.source = some source_el)
    (ht : find_element_by_id m rel.target = some target_el) :
    (attempt_to_fix_relationship m rel).isSome = true := by
  rw [attempt_to_fix_eq_claim m rel source_el target_el hs ht]
  rcases claim_fix_order_cases source_el.xsiType target_el.xsiType rel.xsiType with h | h <;>
    simp [h, apply_claim_action]

/-- The fix loop never appends to the unfixable log: on a normal return
the log equals its initial value. -/
theorem fix_loop_unfix_const (base : List Entity) :
    ∀ (pending done : List Entity) (fixed : List (Entity × RepairAction))
      (unfix survivors : List Entity) (f : List (Entity × RepairAction)) (u : List Entity),
      fix_loop base pending done fixed unfix = .ok (survivors, f, u) → u = unfix := by
  intro pending
  induction pending with
  | nil =>
      intro done fixed unfix survivors f u h
      simp [fix_loop] at h
      exact h.2.2.symm
  | cons rel rest ih =>
      intro done fixed unfix survivors f u h
      simp only [fix_loop] at h
      cases hs : find_element_by_id (base ++ done ++ (rel :: rest)) rel.source with
      | none => simp only [hs] at h; cases h
      | some source_el =>
        cases ht : find_element_by_id (base ++ done ++ (rel :: rest)) rel.target with
        | none => simp only [hs, ht] at h; cases h
        | some target_el =>
          simp only [hs, ht] at h
          by_cases ha : is_relationship_allowed source_el.xsiType target_el.xsiType rel.xsiType = true
          · rw [if_pos ha] at h
            exact ih _ _ _ _ _ _ h
          · rw [if_neg ha] at h
            cases hfix : attempt_to_fix_relationship (base ++ done ++ (rel :: rest)) rel with
            | none =>
                have := attempt_to_fix_isSome _ rel source_el target_el hs ht
                rw [hfix] at this
                cases this
            | some pr =>
                obtain ⟨rel', act⟩ := pr
                simp only [hfix] at h
                exact ih _ _ _ _ _ _ h

/-- **C5.** For every incompatible relationship whose source and target
are found, the repair attempt succeeds (the priority scan always accepts
`AssociationRelationship`, present in every valid-alternatives set), so
the `removed unfixable` branch of the cleanup pass is unreachable: any
completed cleanup has an empty unfixable log. -/
theorem repair_never_unfixable :
    (∀ (m : ArchiModel) (rel source_el target_el : Entity),
        find_element_by_id m rel.source = some source_el →
        find_element_by_id m rel.target = some target_el →
        (attempt_to_fix_relationship m rel).isSome = true) ∧
    (∀ (m : ArchiModel) (r : CleanupResult),
        validate_and_clean_relationships m = .ok r → r.unfixable_removed = []) := by
  constructor
  · intro m rel source_el target_el hs ht
    exact attempt_to_fix_isSome m rel source_el target_el hs ht
  · intro m r h
    unfold validate_and_clean_relationships at h
    cases hfl : fix_loop (non_relationship_entities m)
        (remove_duplicates (orphan_free_relationships m) []).1 [] [] [] with
    | error e => rw [hfl] at h; cases h
    | ok triple =>
        obtain ⟨survivors, fixed, unfix⟩ := triple
        rw [hfl] at h
        cases h
        exact fix_loop_unfix_const _ _ _ _ _ _ _ _ hfl

/-- **C5 witness.** The concrete invalid Realization of `demo_model` is
repaired (endpoints found, fix returned). -/
theorem repair_never_unfixable_witness :
    (attempt_to_fix_relationship demo_model rel_realize_AB).isSome = true :=
  repair_never_unfixable.1 demo_model rel_realize_AB goal_A goal_B (by decide) (by decide)

/-! ## C3: re-validation after a completed cleanup -/

/-- A lookup that succeeds in a prefix of the document succeeds, with the
same result, in the whole document. -/
theorem find_id_append (L X : List Entity) (o : Option String) (e : Entity)
    (h : find_element_by_id L o = some e) :
    find_element_by_id (L ++ X) o = some e := by
  cases o with
  | none => simp [find_element_by_id] at h
  | some i =>
      simp only [find_element_by_id] at h ⊢
      rw [List.find?_append, h]
      rfl

/-- The entity found for `some i` lies in the searched list and has id `i`. -/
theorem find_id_spec (L : List Entity) (i : String) (e : Entity)
    (h : find_element_by_id L (some i) = some e) : e ∈ L ∧ e.id = i := by
  simp only [find_element_by_id] at h
  refine ⟨List.mem_of_find?_eq_some h, ?_⟩
  have := List.find?_some h
  simpa using this

/-- Duplicate removal keeps a subset of its input. -/
theorem remove_duplicates_subset :
    ∀ (l : List Entity) (seen : List (Option String × Option String × String)),
      (remove_duplicates l seen).1 ⊆ l := by
  intro l
  induction l with
  | nil => intro seen; simp [remove_duplicates]
  | cons r rest ih =>
      intro seen
      by_cases hc : rel_tuple r ∈ seen
      · simp only [remove_duplicates]
        rw [if_pos (by simpa using hc)]
        exact fun x hx => List.mem_cons_of_mem _ (ih seen hx)
      · simp only [remove_duplicates]
        rw [if_neg (by simpa using hc)]
        intro x hx
        rcases List.mem_cons.mp hx with h | h
        · simp [h]
        · exact List.mem_cons_of_mem _ (ih _ h)

/-- The fixed-type string is still a relationship type. -/
theorem retyped_is_relationship :
    str_endswith "archimate:AssociationRelationship" "Relationship" = true := by decide

/-- The fix loop turns `pending_ok` relationships into `surviving_ok`
survivors: every fix it applies (reversal or retype to Association)
produces a compatible relationship with resolvable endpoints. -/
theorem fix_loop_preserves (base : List Entity) :
    ∀ (pending done : List Entity) (fixed : List (Entity × RepairAction))
      (unfix survivors : List Entity) (f : List (Entity × RepairAction)) (u : List Entity),
      (∀ r ∈ pending, pending_ok base r) →
      (∀ s ∈ done, surviving_ok base s) →
      fix_loop base pending done fixed unfix = .ok (survivors, f, u) →
      ∀ s ∈ survivors, surviving_ok base s := by
  intro pending
  induction pending with
  | nil =>
      intro done fixed unfix survivors f u _ hdone h
      simp only [fix_loop, Except.ok.injEq, Prod.mk.injEq] at h
      intro s hs
      exact hdone s (h.1 ▸ hs)
  | cons rel rest ih =>
      intro done fixed unfix survivors f u hpend hdone h
      obtain ⟨hisrel, ⟨se, hse⟩, ⟨te, hte⟩⟩ := hpend rel (List.mem_cons_self _ _)
      have hse' : find_element_by_id (base ++ done ++ (rel :: rest)) rel.source = some se :=
        find_id_append _ _ _ _ (find_id_append _ _ _ _ hse)
      have hte' : find_element_by_id (base ++ done ++ (rel :: rest)) rel.target = some te :=
        find_id_append _ _ _ _ (find_id_append _ _ _ _ hte)
      have hpend' : ∀ r ∈ rest, pending_ok base r :=
        fun r hr => hpend r (List.mem_cons_of_mem _ hr)
      simp only [fix_loop, hse', hte'] at h
      by_cases ha : is_relationship_allowed se.xsiType te.xsiType rel.xsiType = true
      · rw [if_pos ha] at h
        refine ih _ _ _ _ _ _ hpend' ?_ h
        intro s hs
        rcases List.mem_append.mp hs with h1 | h1
        · exact hdone s h1
        · have hsrel : s = rel := by simpa using h1
          subst hsrel
          exact ⟨hisrel, se, te, hse, hte, ha⟩
      · rw [if_neg ha] at h
        rw [attempt_to_fix_eq_claim _ rel se te hse' hte'] at h
        rcases claim_fix_order_cases se.xsiType te.xsiType rel.xsiType with hco | hco
        · -- the fix reversed the direction: the original type is allowed in reverse
          have hguard : is_relationship_allowed te.xsiType se.xsiType rel.xsiType = true := by
            by_contra hg
            unfold claim_fix_order at hco
            rw [if_neg hg] at hco
            rw [find_priority_first
              (is_allowed_assoc se.xsiType te.xsiType "AssociationRelationship" (by decide))] at hco
            cases hco
          rw [hco] at h
          simp only [apply_claim_action, Option.map_some'] at h
          refine ih _ _ _ _ _ _ hpend' ?_ h
          intro s hs
          rcases List.mem_append.mp hs with h1 | h1
          · exact hdone s h1
          · have hsrel : s = { rel with source := some te.id, target := some se.id } := by
              simpa using h1
            subst hsrel
            obtain ⟨it, hit⟩ : ∃ it, rel.target = some it := by
              cases hrt : rel.target with
              | none => rw [hrt] at hte; simp [find_element_by_id] at hte
              | some it => exact ⟨it, rfl⟩
            obtain ⟨is_, his⟩ : ∃ is_, rel.source = some is_ := by
              cases hrs : rel.source with
              | none => rw [hrs] at hse; simp [find_element_by_id] at hse
              | some is_ => exact ⟨is_, rfl⟩
            have hteid : te.id = it := (find_id_spec base it te (by rw [← hit]; exact hte)).2
            have hseid : se.id = is_ := (find_id_spec base is_ se (by rw [← his]; exact hse)).2
            refine ⟨hisrel, te, se, ?_, ?_, hguard⟩
            · show find_element_by_id base (some te.id) = some te
              rw [hteid, ← hit]
              exact hte
            · show find_element_by_id base (some se.id) = some se
              rw [hseid, ← his]
              exact hse
        · -- the fix retyped to Association
          rw [hco] at h
          simp only [apply_claim_action, Option.map_some'] at h
          refine ih _ _ _ _ _ _ hpend' ?_ h
          intro s hs
          rcases List.mem_append.mp hs with h1 | h1
          · exact hdone s h1
          · have hsrel : s = { rel with xsiType := "archimate:AssociationRelationship" } := by
              simpa using h1
            subst hsrel
            refine ⟨retyped_is_relationship, se, te, hse, hte, ?_⟩
            exact is_allowed_assoc se.xsiType te.xsiType
              "archimate:AssociationRelationship" (by decide)

/-- **C3 (amended).** After one completed cleanup pass — on a model whose
resolvable relationship endpoints all denote non-relationship entities,
as the data model prescribes — re-running the validation passes reports
no orphaned and no incompatible relationships.  (The duplicate list, by
contrast, can be non-empty: see the counterexample.) -/
theorem cleanup_then_revalidate (m : ArchiModel)
    (hend : ∀ r ∈ find_all_relationships m, ∀ i : String,
        (r.source = some i ∨ r.target = some i) → i ∈ all_ids m →
        ∃ e ∈ non_relationship_entities m, e.id = i)
    (res : CleanupResult)
    (hok : validate_and_clean_relationships m = .ok res) :
    (validation_passes res.model).1 = [] ∧ (validation_passes res.model).2.2 = [] := by
  unfold validate_and_clean_relationships at hok
  cases hfl : fix_loop (non_relationship_entities m)
      (remove_duplicates (orphan_free_relationships m) []).1 [] [] [] with
  | error e => rw [hfl] at hok; cases hok
  | ok triple =>
      obtain ⟨survivors, fixed, unfix⟩ := triple
      rw [hfl] at hok
      cases hok
      have hsurv : ∀ s ∈ survivors, surviving_ok (non_relationship_entities m) s := by
        refine fix_loop_preserves (non_relationship_entities m) _ [] [] [] survivors fixed unfix
          ?_ (by intro s hs; cases hs) hfl
        intro r hr
        have hr1 : r ∈ orphan_free_relationships m := remove_duplicates_subset _ [] hr
        obtain ⟨hrm, hok2⟩ := List.mem_filter.mp hr1
        have hoks : endpoint_ok (all_ids m) r.source = true ∧
            endpoint_ok (all_ids m) r.target = true := by
          constructor
          · exact (Bool.and_eq_true _ _ |>.mp hok2).1
          · exact (Bool.and_eq_true _ _ |>.mp hok2).2
        have hrel_is : is_relationship_entity r = true := (List.mem_filter.mp hrm).2
        refine ⟨hrel_is, ?_, ?_⟩
        · cases hsrc : r.source with
          | none => rw [hsrc] at hoks; simp [endpoint_ok] at hoks
          | some i =>
              have hin : i ∈ all_ids m := by
                have h0 := hoks.1
                rw [hsrc] at h0
                simpa [endpoint_ok] using h0
              obtain ⟨e, he, hei⟩ := hend r hrm i (Or.inl hsrc) hin
              have hs : ((non_relationship_entities m).find?
                  (fun x => x.id = i)).isSome = true :=
                List.find?_isSome.mpr ⟨e, he, by simp [hei]⟩
              obtain ⟨e', he'⟩ := Option.isSome_iff_exists.mp hs
              exact ⟨e', by simpa [find_element_by_id] using he'⟩
        · cases htgt : r.target with
          | none => rw [htgt] at hoks; simp [endpoint_ok] at hoks
          | some i =>
              have hin : i ∈ all_ids m := by
                have h0 := hoks.2
                rw [htgt] at h0
                simpa [endpoint_ok] using h0
              obtain ⟨e, he, hei⟩ := hend r hrm i (Or.inr htgt) hin
              have hs : ((non_relationship_entities m).find?
                  (fun x => x.id = i)).isSome = true :=
                List.find?_isSome.mpr ⟨e, he, by simp [hei]⟩
              obtain ⟨e', he'⟩ := Option.isSome_iff_exists.mp hs
              exact ⟨e', by simpa [find_element_by_id] using he'⟩
      have hfar : find_all_relationships (non_relationship_entities m ++ survivors) = survivors := by
        unfold find_all_relationships
        rw [List.filter_append]
        have h1 : (non_relationship_entities m).filter (fun e => is_relationship_entity e) = [] := by
          rw [List.filter_eq_nil_iff]
          intro a ha
          have := (List.mem_filter.mp ha).2
          simp_all [non_relationship_entities]
        have h2 : survivors.filter (fun e => is_relationship_entity e) = survivors := by
          rw [List.filter_eq_self]
          intro a ha
          exact (hsurv a ha).1
        rw [h1, h2, List.nil_append]
      have hsurv_ok : ∀ s ∈ survivors,
          endpoint_ok (all_ids (non_relationship_entities m ++ survivors)) s.source = true ∧
          endpoint_ok (all_ids (non_relationship_entities m ++ survivors)) s.target = true := by
        intro s hs
        obtain ⟨hsrel, se, te, hse, hte, hall⟩ := hsurv s hs
        constructor
        · cases hsrc : s.source with
          | none => rw [hsrc] at hse; simp [find_element_by_id] at hse
          | some i =>
              rw [hsrc] at hse
              obtain ⟨hmem, hid⟩ := find_id_spec _ _ _ hse
              have : i ∈ all_ids (non_relationship_entities m ++ survivors) := by
                unfold all_ids
                rw [List.map_append]
                exact List.mem_append_left _ (List.mem_map.mpr ⟨se, hmem, hid⟩)
              simpa [endpoint_ok] using this
        · cases htgt : s.target with
          | none => rw [htgt] at hte; simp [find_element_by_id] at hte
          | some i =>
              rw [htgt] at hte
              obtain ⟨hmem, hid⟩ := find_id_spec _ _ _ hte
              have : i ∈ all_ids (non_relationship_entities m ++ survivors) := by
                unfold all_ids
                rw [List.map_append]
                exact List.mem_append_left _ (List.mem_map.mpr ⟨te, hmem, hid⟩)
              simpa [endpoint_ok] using this
      constructor
      · show orphaned_relationships (non_relationship_entities m ++ survivors) = []
        unfold orphaned_relationships
        rw [hfar, List.filter_eq_nil_iff]
        intro s hs
        have := hsurv_ok s hs
        simp [this.1, this.2]
      · show ((remove_duplicates
            (orphan_free_relationships (non_relationship_entities m ++ survivors)) []).1.filter
              _) = []
        rw [List.filter_eq_nil_iff]
        intro s hs
        have hs1 : s ∈ orphan_free_relationships (non_relationship_entities m ++ survivors) :=
          remove_duplicates_subset _ _ hs
        have hs2 : s ∈ find_all_relationships (non_relationship_entities m ++ survivors) :=
          (List.mem_filter.mp hs1).1
        rw [hfar] at hs2
        obtain ⟨hsrel, se, te, hse, hte, hall⟩ := hsurv s hs2
        have hse' : find_element_by_id (non_relationship_entities m ++ survivors) s.source =
            some se := find_id_append _ _ _ _ hse
        have hte' : find_element_by_id (non_relationship_entities m ++ survivors) s.target =
            some te := find_id_append _ _ _ _ hte
        simp [hse', hte', hall]

/-- **C3 witness.** On the demo model (which satisfies the endpoint
hypothesis and cleans up successfully), re-validation reports no orphans
and no incompatibilities. -/
theorem cleanup_then_revalidate_witness :
    (validation_passes demo_cleaned.model).1 = [] ∧
      (validation_passes demo_cleaned.model).2.2 = [] := by
  refine cleanup_then_revalidate demo_model ?_ demo_cleaned (by rfl)
  intro r hr i hi _
  have hr' : r = rel_assoc_AB ∨ r = rel_realize_AB := by
    have hfa : find_all_relationships demo_model = [rel_assoc_AB, rel_realize_AB] := by rfl
    rw [hfa] at hr
    simpa using hr
  have hAB : i = "A" ∨ i = "B" := by
    rcases hr' with h | h <;> subst h <;> rcases hi with h2 | h2 <;>
      simp [rel_assoc_AB, rel_realize_AB] at h2 <;> simp [h2]
  rcases hAB with h | h <;> subst h
  · exact ⟨goal_A, by decide, rfl⟩
  · exact ⟨goal_B, by decide, rfl⟩

/-! ## C6: no inbound halving in `calculate_impact` -/

/-- Lowercasing the Association type tag. -/
theorem lower_assoc :
    str_lower "AssociationRelationship" = "associationrelationship" := by decide

/-- The Association type matches no key of the weights dict, so its
impact weight is the 0.5 default. -/
theorem assoc_impact_weight :
    get_relationship_weight "associationrelationship" = 1/2 := by
  have h : IMPACT_WEIGHTS.find?
      (fun p => str_has_sub "associationrelationship" p.1) = none := by decide
  unfold get_relationship_weight
  rw [h]

/-- Evaluation of the inbound run: the focused element keeps 1.0 and `Y`
receives `1 * 0.5 * 0.7 = 0.35`. -/
theorem inbound_run_eval :
    calculate_impact inbound_model "X" = .ok [("X", 1), ("Y", 7/20)] := by
  norm_num +decide [calculate_impact, calculate_impact_go, impact_fuel, propagate_rels,
    melement_find, dict_set, dict_get, lookup_str, lower_assoc, assoc_impact_weight,
    inbound_model, List.find?_cons_of_pos, List.find?_cons_of_neg, List.find?_nil, List.foldl]

/-- Evaluation of the mirrored outbound run: identical scores. -/
theorem outbound_run_eval :
    calculate_impact outbound_model "X" = .ok [("X", 1), ("Y", 7/20)] := by
  norm_num +decide [calculate_impact, calculate_impact_go, impact_fuel, propagate_rels,
    melement_find, dict_set, dict_get, lookup_str, lower_assoc, assoc_impact_weight,
    outbound_model, List.find?_cons_of_pos, List.find?_cons_of_neg, List.find?_nil, List.foldl]

/-- **C6 counterexample.** Focused on `X` with the single incoming
relationship `Y → X` (Association, weight 0.5), the value propagated to
`Y` against the relationship direction is `1 * 0.5 * 0.7 = 0.35` — not
the claimed `strength * weight * decay * 0.5 = 0.175`: `calculate_impact`
applies no 0.5 inbound factor. -/
theorem inbound_no_halving :
    calculate_impact inbound_model "X" = .ok [("X", 1), ("Y", 7/20)] ∧
      (7 / 20 : ℚ) ≠ 1 * get_relationship_weight "associationrelationship" * (7/10) * (1/2) := by
  refine ⟨inbound_run_eval, ?_⟩
  rw [assoc_impact_weight]
  norm_num

/-- **C6 amended.** `calculate_impact` propagates
`strength * weight * 0.7` both along and against relationship direction:
the inbound run and its mirrored outbound run assign `Y` the identical
score `1 * 0.5 * 0.7`. -/
theorem inbound_equals_outbound :
    calculate_impact inbound_model "X" = .ok [("X", 1), ("Y", 7/20)] ∧
      calculate_impact outbound_model "X" = .ok [("X", 1), ("Y", 7/20)] ∧
      (7 / 20 : ℚ) = 1 * get_relationship_weight "associationrelationship" * (7/10) := by
  refine ⟨inbound_run_eval, outbound_run_eval, ?_⟩
  rw [assoc_impact_weight]
  norm_num

/-- **C7 counterexample.** `simulate_change_impact` performs no final
normalization and seeds start at `impact_strength` (0.8 by default): on
the two-node graph the seed's final score is 0.8, not 1.0. -/
theorem simulate_seed_score_counterexample :
    simulate_change_impact nx_demo ["X"] (4/5) = [("X", 4/5), ("Y", 7/25)] ∧
      (4 / 5 : ℚ) ≠ 1 := by
  constructor
  · norm_num +decide [simulate_change_impact, nx_bfs, nx_fuel, nx_successors, nx_weight,
      nx_demo, dict_set, lookup_str, List.find?_cons_of_pos, List.find?_cons_of_neg, List.find?_nil, List.foldl, List.filter]
  · norm_num

/-! ## C10: missing seed ids -/

/-- Seeds absent from the graph are skipped by `simulate_change_impact`:
the run equals the run on the present seeds only. -/
theorem nx_fold_filter (g : NXGraph) (σ : ℚ) :
    ∀ (seeds : List String) (init : List (String × ℚ)),
      seeds.foldl
        (fun impact_scores start_node =>
          if g.nodes.contains start_node then
            nx_bfs g (nx_fuel g) [] [(start_node, σ)] impact_scores
          else impact_scores) init =
      (seeds.filter (fun s => g.nodes.contains s)).foldl
        (fun impact_scores start_node =>
          if g.nodes.contains start_node then
            nx_bfs g (nx_fuel g) [] [(start_node, σ)] impact_scores
          else impact_scores) init := by
  intro seeds
  induction seeds with
  | nil => intro init; rfl
  | cons s rest ih =>
      intro init
      by_cases h : g.nodes.contains s = true
      · simp only [List.foldl_cons, List.filter_cons, h, if_pos]
        exact ih _
      · have h' : g.nodes.contains s = false := by simpa using h
        simp only [List.foldl_cons, List.filter_cons, h']
        rw [if_neg (by simp [h']), if_neg (by simp [h'])]
        exact ih init

/-- A start node absent from the graph yields the empty impact dict. -/
theorem gml_missing_start (g : NXGraph) (n : String) (d : Nat)
    (h : g.nodes.contains n = false) : get_impact_analysis g n d = [] := by
  unfold get_impact_analysis
  rw [if_neg (by simpa using h)]

/-- `calculate_impact`, by contrast, raises `KeyError` on a focused id
absent from the element dict: the seed is dequeued, marked visited, and
`self.model.elements[current_id]` fails. -/
theorem impact_missing_seed (m : MModel) (f : String) (hf : f ≠ "")
    (hmiss : melement_find m f = none) :
    calculate_impact m f = .error .keyError := by
  unfold calculate_impact
  rw [if_neg hf]
  unfold impact_fuel
  simp [calculate_impact_go, hmiss]
  intro h
  exact absurd h (by norm_num)

/-- **C10 counterexample.** Impact propagation does not always return
normally on a missing seed id: `Modeller.calculate_impact` raises
`KeyError` when the focused element is not in the element dict. -/
theorem calculate_impact_missing_seed_raises :
    calculate_impact lone_x_model "Z" = Except.error PyError.keyError :=
  impact_missing_seed lone_x_model "Z" (by decide) (by decide)

/-- **C10 (amended).** The two graph-based propagators never error on a
missing seed and it contributes nothing (`simulate_change_impact` skips
it — the run equals the run on the present seeds; `get_impact_analysis`
returns the empty dict); `Modeller.calculate_impact`, however, raises
`KeyError` on a missing focused id. -/
theorem missing_seed_behaviour :
    (∀ (g : NXGraph) (seeds : List String) (σ : ℚ),
        simulate_change_impact g seeds σ =
          simulate_change_impact g (seeds.filter (fun s => g.nodes.contains s)) σ) ∧
    (∀ (g : NXGraph) (n : String) (d : Nat),
        g.nodes.contains n = false → get_impact_analysis g n d = []) ∧
    (∀ (m : MModel) (f : String), f ≠ "" → melement_find m f = none →
        calculate_impact m f = Except.error PyError.keyError) := by
  refine ⟨?_, ?_, ?_⟩
  · intro g seeds σ
    exact nx_fold_filter g σ seeds []
  · intro g n d h
    exact gml_missing_start g n d h
  · intro m f hf hmiss
    exact impact_missing_seed m f hf hmiss

/-- **C10 witness.** The three behaviours at concrete inputs: the seed
`"Z"` is missing from `nx_demo` and from `lone_x_model`. -/
theorem missing_seed_behaviour_witness :
    simulate_change_impact nx_demo ["Z"] (4/5) =
        simulate_change_impact nx_demo (["Z"].filter (fun s => nx_demo.nodes.contains s)) (4/5) ∧
    get_impact_analysis nx_demo "Z" 3 = [] ∧
    calculate_impact lone_x_model "Q" = Except.error PyError.keyError :=
  ⟨missing_seed_behaviour.1 nx_demo ["Z"] (4/5),
   missing_seed_behaviour.2.1 nx_demo "Z" 3 (by decide),
   missing_seed_behaviour.2.2 lone_x_model "Q" (by decide) (by decide)⟩

/-! ## C7: score bounds of the propagation -/

/-- Every impact weight lies in `[0, 9/10]` (the table maximum; 0.5 is
the default). -/
theorem weight_bounds (t : String) :
    0 ≤ get_relationship_weight t ∧ get_relationship_weight t ≤ 9/10 := by
  unfold get_relationship_weight
  cases h : IMPACT_WEIGHTS.find? (fun p => str_has_sub t p.1) with
  | none => norm_num
  | some p =>
      have hmem : p ∈ IMPACT_WEIGHTS := List.mem_of_find?_eq_some h
      simp only [IMPACT_WEIGHTS] at hmem
      fin_cases hmem <;> norm_num

theorem lookup_dict_set_self (d : List (String × ℚ)) (k : String) (v : ℚ) :
    lookup_str (dict_set d k v) k = some v := by
  induction d with
  | nil => simp [dict_set, lookup_str]
  | cons p rest ih =>
      obtain ⟨k0, v0⟩ := p
      by_cases h : k0 = k
      · subst h; simp [dict_set, lookup_str]
      · simp [dict_set, lookup_str, h, ih]

theorem lookup_dict_set_other (d : List (String × ℚ)) (k k' : String) (v : ℚ)
    (h : k' ≠ k) : lookup_str (dict_set d k v) k' = lookup_str d k' := by
  induction d with
  | nil => simp [dict_set, lookup_str, Ne.symm h]
  | cons p rest ih =>
      obtain ⟨k0, v0⟩ := p
      by_cases h0 : k0 = k
      · subst h0
        simp [dict_set, lookup_str, Ne.symm h]
      · by_cases h1 : k0 = k'
        · subst h1; simp [dict_set, lookup_str, h0]
        · simp [dict_set, lookup_str, h0, h1, ih]

/-- Every value of the all-zero initial score dict is zero. -/
theorem lookup_zeros (l : List MElement) (k : String) (v : ℚ)
    (h : lookup_str (l.map (fun e => (e.id, (0 : ℚ)))) k = some v) : v = 0 := by
  induction l with
  | nil => simp [lookup_str] at h
  | cons e rest ih =>
      by_cases h0 : e.id = k
      · simp [lookup_str, h0] at h
        exact h.symm
      · simp only [List.map_cons, lookup_str, h0, if_neg h0] at h
        exact ih h

/-- Every element id has an entry in the initial score dict. -/
theorem zeros_key_present (l : List MElement) (k : String)
    (hk : k ∈ l.map MElement.id) :
    ∃ v, lookup_str (l.map (fun e => (e.id, (0 : ℚ)))) k = some v := by
  induction l with
  | nil => simp at hk
  | cons e rest ih =>
      by_cases h0 : e.id = k
      · exact ⟨0, by simp [lookup_str, h0]⟩
      · have hk' : k ∈ rest.map MElement.id := by
          simp only [List.map_cons, List.mem_cons] at hk
          rcases hk with h | h
          · exact absurd h.symm h0
          · exact h
        obtain ⟨v, hv⟩ := ih hk'
        exact ⟨v, by simp only [List.map_cons, lookup_str, if_neg h0]; exact hv⟩

/-- The relationship scan of one visit preserves the score invariant and
only queues bounded, reachable entries. -/
theorem propagate_rels_inv (m : MModel) (f : String) (strength : ℚ) (cur : String)
    (hs0 : 0 ≤ strength) (hs1 : strength ≤ 1) (hcur : impact_reachable m f cur) :
    ∀ (rels : List MRel) (scores adds : List (String × ℚ)),
      (∀ rl ∈ rels, impact_adjacent m cur rl.other) →
      impact_scores_inv m f scores → impact_queue_inv m f adds →
      impact_scores_inv m f (propagate_rels m strength rels scores adds).1 ∧
      impact_queue_inv m f (propagate_rels m strength rels scores adds).2 := by
  intro rels
  induction rels with
  | nil =>
      intro scores adds _ hsc hq
      simpa [propagate_rels] using And.intro hsc hq
  | cons r rest ih =>
      intro scores adds hadj hsc hq
      have hadj_r : impact_adjacent m cur r.other := hadj r (List.mem_cons_self _ _)
      have hadj' : ∀ rl ∈ rest, impact_adjacent m cur rl.other :=
        fun rl h => hadj rl (List.mem_cons_of_mem _ h)
      have hreach_other : impact_reachable m f r.other :=
        Relation.ReflTransGen.tail hcur hadj_r
      have hw := weight_bounds (str_lower r.type)
      have hp0 : 0 ≤ strength * get_relationship_weight (str_lower r.type) * (7/10) := by
        have := mul_nonneg hs0 hw.1
        positivity
      have hp1 : strength * get_relationship_weight (str_lower r.type) * (7/10) ≤ 63/100 := by
        have h1 : strength * get_relationship_weight (str_lower r.type) ≤ 1 * (9/10) :=
          mul_le_mul hs1 hw.2 hw.1 (by norm_num)
        nlinarith
      by_cases hfind : (melement_find m r.other).isSome = true
      · by_cases hgt : strength * get_relationship_weight (str_lower r.type) * (7/10) >
            dict_get scores r.other
        · have hne : r.other ≠ f := by
            intro hEq
            subst hEq
            have : dict_get scores r.other = 1 := by
              unfold dict_get
              rw [hsc.1]
              rfl
            rw [this] at hgt
            nlinarith
          have hrw : propagate_rels m strength (r :: rest) scores adds =
              propagate_rels m strength rest
                (dict_set scores r.other
                  (strength * get_relationship_weight (str_lower r.type) * (7/10)))
                (adds ++ [(r.other, strength * get_relationship_weight (str_lower r.type) * (7/10))]) := by
            simp only [propagate_rels, if_pos hfind, if_pos hgt]
          rw [hrw]
          refine ih _ _ hadj' ?_ ?_
          · obtain ⟨hA, hB, hC, hD⟩ := hsc
            refine ⟨?_, ?_, ?_, ?_⟩
            · rw [lookup_dict_set_other _ _ _ _ (fun hk => hne hk.symm)]
              exact hA
            · intro k v hkv
              by_cases hk : k = r.other
              · subst hk
                rw [lookup_dict_set_self] at hkv
                cases hkv
                constructor
                · exact hp0
                · linarith
              · rw [lookup_dict_set_other _ _ _ _ hk] at hkv
                exact hB k v hkv
            · intro k hk
              by_cases hkk : k = r.other
              · subst hkk
                exact ⟨_, lookup_dict_set_self _ _ _⟩
              · obtain ⟨v, hv⟩ := hC k hk
                exact ⟨v, by rw [lookup_dict_set_other _ _ _ _ hkk]; exact hv⟩
            · intro k v hkv hnr
              by_cases hkk : k = r.other
              · subst hkk
                exact absurd hreach_other hnr
              · rw [lookup_dict_set_other _ _ _ _ hkk] at hkv
                exact hD k v hkv hnr
          · intro p hp
            rcases List.mem_append.mp hp with h | h
            · exact hq p h
            · have : p = (r.other, strength * get_relationship_weight (str_lower r.type) * (7/10)) := by
                simpa using h
              subst this
              exact ⟨hp0, by linarith, hreach_other⟩
        · have hrw : propagate_rels m strength (r :: rest) scores adds =
              propagate_rels m strength rest scores adds := by
            simp only [propagate_rels, if_pos hfind, if_neg hgt]
          rw [hrw]
          exact ih _ _ hadj' hsc hq
      · have hrw : propagate_rels m strength (r :: rest) scores adds =
            propagate_rels m strength rest scores adds := by
          simp only [propagate_rels, if_neg hfind]
        rw [hrw]
        exact ih _ _ hadj' hsc hq

/-- The BFS of `calculate_impact` preserves the score invariant through
to any normal return. -/
theorem calculate_impact_go_inv (m : MModel) (f : String) :
    ∀ (fuel : Nat) (visited : List String) (q scores r : List (String × ℚ)),
      impact_queue_inv m f q → impact_scores_inv m f scores →
      calculate_impact_go m fuel visited q scores = .ok r →
      impact_scores_inv m f r := by
  intro fuel
  induction fuel with
  | zero =>
      intro visited q scores r _ hsc h
      simp only [calculate_impact_go, Except.ok.injEq] at h
      rwa [← h]
  | succ fuel ih =>
      intro visited q scores r hq hsc h
      cases q with
      | nil =>
          simp only [calculate_impact_go, Except.ok.injEq] at h
          rwa [← h]
      | cons p rest =>
          obtain ⟨cid, strength⟩ := p
          simp only [calculate_impact_go] at h
          by_cases hskip : (visited.contains cid || decide (strength < 1/100)) = true
          · rw [if_pos hskip] at h
            exact ih visited rest scores r
              (fun p hp => hq p (List.mem_cons_of_mem _ hp)) hsc h
          · rw [if_neg hskip] at h
            cases hfind : melement_find m cid with
            | none => rw [hfind] at h; cases h
            | some element =>
                simp only [hfind] at h
                obtain ⟨h0, h1', hreach⟩ := hq (cid, strength) (List.mem_cons_self _ _)
                have hadj : ∀ rl ∈ element.rels_out ++ element.rels_in,
                    impact_adjacent m cid rl.other := by
                  intro rl hrl
                  exact ⟨element, hfind, List.mem_map.mpr ⟨rl, hrl, rfl⟩⟩
                have hstep := propagate_rels_inv m f strength cid h0 h1' hreach
                  (element.rels_out ++ element.rels_in) scores [] hadj hsc
                  (by intro p hp; cases hp)
                refine ih _ _ _ r ?_ hstep.1 h
                intro p hp
                rcases List.mem_append.mp hp with h' | h'
                · exact hq p (List.mem_cons_of_mem _ h')
                · exact hstep.2 p h'

/-- Bounds of `calculate_impact` on any normal return: the focused seed
scores exactly 1.0, every score lies in `[0, 1]`, and every element id
with no relationship path from the seed scores exactly 0.0. -/
theorem calculate_impact_bounds (m : MModel) (f : String) (r : List (String × ℚ))
    (hf : f ≠ "") (hok : calculate_impact m f = .ok r) :
    lookup_str r f = some 1 ∧
    (∀ k v, lookup_str r k = some v → 0 ≤ v ∧ v ≤ 1) ∧
    (∀ k, k ∈ m.elements.map MElement.id → ¬ impact_reachable m f k →
        lookup_str r k = some 0) := by
  unfold calculate_impact at hok
  rw [if_neg hf] at hok
  have hinv0 : impact_scores_inv m f
      (dict_set (m.elements.map (fun e => (e.id, (0 : ℚ)))) f 1) := by
    refine ⟨lookup_dict_set_self _ _ _, ?_, ?_, ?_⟩
    · intro k v hkv
      by_cases hk : k = f
      · subst hk
        rw [lookup_dict_set_self] at hkv
        cases hkv
        norm_num
      · rw [lookup_dict_set_other _ _ _ _ hk] at hkv
        have hz := lookup_zeros _ _ _ hkv
        subst hz
        norm_num
    · intro k hk
      by_cases hkf : k = f
      · subst hkf
        exact ⟨1, lookup_dict_set_self _ _ _⟩
      · obtain ⟨v, hv⟩ := zeros_key_present m.elements k hk
        exact ⟨v, by rw [lookup_dict_set_other _ _ _ _ hkf]; exact hv⟩
    · intro k v hkv hnreach
      by_cases hkf : k = f
      · subst hkf
        exact absurd Relation.ReflTransGen.refl hnreach
      · rw [lookup_dict_set_other _ _ _ _ hkf] at hkv
        exact lookup_zeros _ _ _ hkv
  have hq0 : impact_queue_inv m f [(f, 1)] := by
    intro p hp
    have hp' : p = (f, 1) := by simpa using hp
    subst hp'
    exact ⟨by norm_num, by norm_num, Relation.ReflTransGen.refl⟩
  obtain ⟨ha, hb, hc, hd⟩ :=
    calculate_impact_go_inv m f (impact_fuel m) [] [(f, 1)] _ r hq0 hinv0 hok
  refine ⟨ha, hb, ?_⟩
  intro k hk hnr
  obtain ⟨v, hv⟩ := hc k hk
  have hz := hd k v hv hnr
  rw [hz] at hv
  exact hv

/-- Scores already recorded for a visited node are never overwritten by
the remaining BFS of `simulate_change_impact`. -/
theorem nx_bfs_keeps (g : NXGraph) (s : String) (σ : ℚ) :
    ∀ (fuel : Nat) (visited : List String) (q scores : List (String × ℚ)),
      s ∈ visited → lookup_str scores s = some σ →
      lookup_str (nx_bfs g fuel visited q scores) s = some σ := by
  intro fuel
  induction fuel with
  | zero =>
      intro visited q scores _ hsc
      simpa [nx_bfs] using hsc
  | succ fuel ih =>
      intro visited q scores hvis hsc
      cases q with
      | nil => simpa [nx_bfs] using hsc
      | cons p rest =>
          obtain ⟨cur, imp⟩ := p
          by_cases hc : visited.contains cur = true
          · simp only [nx_bfs, if_pos hc]
            exact ih visited rest scores hvis hsc
          · have hcur_ne : cur ≠ s := by
              intro hEq
              subst hEq
              exact hc (by simpa using hvis)
            simp only [nx_bfs, if_neg hc]
            refine ih _ _ _ (List.mem_cons_of_mem _ hvis) ?_
            cases hl : lookup_str scores cur with
            | none => rw [lookup_dict_set_other _ _ _ _ (Ne.symm hcur_ne)]; exact hsc
            | some prev => rw [lookup_dict_set_other _ _ _ _ (Ne.symm hcur_ne)]; exact hsc

/-- A single present seed keeps its `impact_strength` as final score. -/
theorem simulate_single_seed (g : NXGraph) (s : String) (σ : ℚ)
    (hs : g.nodes.contains s = true) :
    lookup_str (simulate_change_impact g [s] σ) s = some σ := by
  unfold simulate_change_impact
  simp only [List.foldl_cons, List.foldl_nil, if_pos hs]
  unfold nx_fuel
  have hc0 : ([] : List String).contains s = false := rfl
  simp only [nx_bfs, if_neg (by simp : ¬(([] : List String).contains s = true))]
  refine nx_bfs_keeps g s σ _ _ _ _ (List.mem_cons_self _ _) ?_
  simp [lookup_str, dict_set]

/-- **C7 (amended).** No cited implementation normalizes.  In
`calculate_impact`: the focused seed's final score is exactly 1.0, every
score lies in `[0,1]`, and every element id with no relationship path
from the seed scores exactly 0.0.  In `simulate_change_impact`: a present
seed's final score is `impact_strength` (0.8 by default), not 1.0. -/
theorem impact_bounds_no_normalization :
    (∀ (m : MModel) (f : String) (r : List (String × ℚ)), f ≠ "" →
        calculate_impact m f = .ok r →
        lookup_str r f = some 1 ∧
        (∀ k v, lookup_str r k = some v → 0 ≤ v ∧ v ≤ 1) ∧
        (∀ k, k ∈ m.elements.map MElement.id → ¬ impact_reachable m f k →
            lookup_str r k = some 0)) ∧
    (∀ (g : NXGraph) (s : String) (σ : ℚ), g.nodes.contains s = true →
        lookup_str (simulate_change_impact g [s] σ) s = some σ) :=
  ⟨fun m f r hf hok => calculate_impact_bounds m f r hf hok,
   fun g s σ hs => simulate_single_seed g s σ hs⟩

/-- **C7 witness.** The bounds at the concrete inbound run and the
concrete simulate run. -/
theorem impact_bounds_no_normalization_witness :
    (lookup_str [("X", (1 : ℚ)), ("Y", 7/20)] "X" = some 1 ∧
      (∀ k v, lookup_str [("X", (1 : ℚ)), ("Y", 7/20)] k = some v → 0 ≤ v ∧ v ≤ 1) ∧
      (∀ k, k ∈ inbound_model.elements.map MElement.id →
          ¬ impact_reachable inbound_model "X" k →
          lookup_str [("X", (1 : ℚ)), ("Y", 7/20)] k = some 0)) ∧
    lookup_str (simulate_change_impact nx_demo ["X"] (4/5)) "X" = some (4/5) :=
  ⟨impact_bounds_no_normalization.1 inbound_model "X" [("X", 1), ("Y", 7/20)]
      (by decide) inbound_run_eval,
   impact_bounds_no_normalization.2 nx_demo "X" (4/5) (by decide)⟩

/-! ## The shipped autocomplete engine: missing helpers -/

theorem rule_pairs_length (m : ArchiModel) (rule : AcRule) :
    (rule_pairs m rule).length =
      (rule_sources m rule).length * (rule_targets m rule).length := by
  unfold rule_pairs
  induction rule_sources m rule with
  | nil => simp
  | cons s ss ih =>
      simp only [List.map_cons, List.flatten_cons, List.length_append,
        List.length_map, List.length_cons, ih]
      ring

theorem autocomplete_rule_loop_error (m : ArchiModel) :
    ∀ rules : List AcRule, (∃ rule ∈ rules, rule_pairs m rule ≠ []) →
      autocomplete_rule_loop m rules = Except.error PyError.attributeError := by
  intro rules
  induction rules with
  | nil => rintro ⟨r, hr, _⟩; cases hr
  | cons r rest ih =>
      rintro ⟨r0, hr0, hne⟩
      cases hp : rule_pairs m r with
      | nil =>
          have hstep : autocomplete_rule_loop m (r :: rest) =
              autocomplete_rule_loop m rest := by
            simp [autocomplete_rule_loop, hp, autocomplete_pair_loop]
          rw [hstep]
          apply ih
          rcases List.mem_cons.mp hr0 with h | h
          · subst h; exact absurd hp hne
          · exact ⟨r0, h, hne⟩
      | cons p ps =>
          simp [autocomplete_rule_loop, hp, autocomplete_pair_loop,
            evaluate_autocomplete_conditions_missing]

theorem pair_total_pos_exists (m : ArchiModel)
    (h : 0 < autocomplete_pair_total m) :
    ∃ rule ∈ AUTOCOMPLETE_RULES, rule_pairs m rule ≠ [] := by
  by_contra hc
  push_neg at hc
  have hz : autocomplete_pair_total m = 0 := by
    unfold autocomplete_pair_total
    apply List.sum_eq_zero
    intro x hx
    rcases List.mem_map.mp hx with ⟨rule, hrule, hxeq⟩
    have h0 : (rule_pairs m rule).length = 0 := by rw [hc rule hrule]; rfl
    rw [← hxeq, ← rule_pairs_length m rule, h0]
  omega

/-- **C9** (confirmed). `autocomplete_model_conservative` never enriches
the model: whenever the precomputed pair total is positive, the run stops
with `AttributeError` at the first enumerated pair — the condition
evaluator `_evaluate_autocomplete_conditions` (and the action executor it
would call) is defined nowhere in the program — and the model is left
unmodified; with zero candidate pairs the function returns the model
unchanged. -/
theorem autocomplete_always_fails_or_noop (m : ArchiModel) :
    (0 < autocomplete_pair_total m →
      autocomplete_model_conservative m = Except.error PyError.attributeError) ∧
    (autocomplete_pair_total m = 0 →
      autocomplete_model_conservative m = Except.ok m) := by
  constructor
  · intro h
    unfold autocomplete_model_conservative
    rw [if_neg (by omega)]
    rw [autocomplete_rule_loop_error m AUTOCOMPLETE_RULES (pair_total_pos_exists m h)]
  · intro h
    unfold autocomplete_model_conservative
    rw [if_pos h]

/-- Witness for `autocomplete_always_fails_or_noop`: a Capability/Goal
model has a positive pair total and raises; the empty model has pair
total zero and is returned unchanged. -/
theorem autocomplete_always_fails_or_noop_witness :
    autocomplete_model_conservative ac_pair_model =
      Except.error PyError.attributeError ∧
    autocomplete_model_conservative ([] : ArchiModel) = Except.ok [] :=
  ⟨(autocomplete_always_fails_or_noop ac_pair_model).1 (by decide),
   (autocomplete_always_fails_or_noop ([] : ArchiModel)).2 (by decide)⟩

/-! ## C8: idempotence of the rule engine (spec-modelled helpers) -/

theorem direct_rules_self_blocking :
    ∀ rule ∈ direct_autocomplete_rules, rule_self_blocking rule = true := by
  decide

theorem all_eq_false_of_mem {α : Type} (p : α → Bool) (l : List α) (x : α)
    (hx : x ∈ l) (hp : p x = false) : l.all p = false := by
  cases hall : l.all p with
  | false => rfl
  | true => exact absurd (List.all_eq_true.mp hall x hx) (by simp [hp])

theorem eval_condition_mono (sim : String → String → ℚ) (m ext : ArchiModel)
    (s t : Entity) (c : AcCondition)
    (h : eval_autocomplete_condition sim m s t c = false) :
    eval_autocomplete_condition sim (m ++ ext) s t c = false := by
  cases c with
  | no_relationship_of_type ts =>
      simp only [eval_autocomplete_condition, Bool.not_eq_false'] at h ⊢
      rw [List.any_append, h, Bool.true_or]
  | name_similarity threshold => exact h
  | target_name_contains kws => exact h
  | target_name_is_part_of_source threshold => exact h

theorem eval_conditions_mono (sim : String → String → ℚ) (m ext : ArchiModel)
    (s t : Entity) (conds : List AcCondition)
    (h : eval_autocomplete_conditions sim m s t conds = false) :
    eval_autocomplete_conditions sim (m ++ ext) s t conds = false := by
  unfold eval_autocomplete_conditions at h ⊢
  induction conds with
  | nil => cases h
  | cons c cs ih =>
      simp only [List.all_cons] at h ⊢
      cases hc : eval_autocomplete_condition sim m s t c with
      | false => simp [eval_condition_mono sim m ext s t c hc]
      | true =>
          rw [hc, Bool.true_and] at h
          simp [ih h, Bool.and_false]

theorem process_pair_false (sim : String → String → ℚ) (rule : AcRule)
    (acc : AcReport) (p : Entity × Entity)
    (h : eval_autocomplete_conditions sim acc.model p.1 p.2 rule.conditions = false) :
    autocomplete_process_pair sim rule acc p = acc := by
  simp [autocomplete_process_pair, h]

theorem process_pair_true_model (sim : String → String → ℚ) (rule : AcRule)
    (acc : AcReport) (p : Entity × Entity)
    (he : rule.action.create_element = none)
    (h : eval_autocomplete_conditions sim acc.model p.1 p.2 rule.conditions = true) :
    (autocomplete_process_pair sim rule acc p).model =
      acc.model ++
        rule.action.create_relationships.map (direct_created_rel acc.model p.1 p.2) := by
  unfold autocomplete_process_pair execute_autocomplete_action
  rw [h, he]
  rfl

theorem fired_pair_blocked (sim : String → String → ℚ) (m : ArchiModel)
    (rule : AcRule) (s t : Entity)
    (hsb : rule_self_blocking rule = true) :
    eval_autocomplete_conditions sim
      (m ++ rule.action.create_relationships.map (direct_created_rel m s t))
      s t rule.conditions = false := by
  unfold rule_self_blocking at hsb
  simp only [Bool.and_eq_true, decide_eq_true_eq, Bool.not_eq_true',
    List.all_eq_true, List.any_eq_true] at hsb
  obtain ⟨⟨he, hne⟩, hall⟩ := hsb
  cases hcr : rule.action.create_relationships with
  | nil => rw [hcr] at hne; cases hne
  | cons spec specs =>
      have hspec := hall spec (by rw [hcr]; exact List.mem_cons_self spec specs)
      obtain ⟨⟨⟨⟨hsrc, htgt⟩, hend⟩, hstrip⟩, c, hcmem, hcval⟩ := hspec
      cases c with
      | name_similarity threshold => cases hcval
      | target_name_contains kws => cases hcval
      | target_name_is_part_of_source threshold => cases hcval
      | no_relationship_of_type ts =>
          unfold eval_autocomplete_conditions
          apply all_eq_false_of_mem _ _ (AcCondition.no_relationship_of_type ts) hcmem
          simp only [eval_autocomplete_condition, Bool.not_eq_false']
          rw [List.any_eq_true]
          refine ⟨direct_created_rel m s t spec, ?_, ?_⟩
          · exact List.mem_append_right m
              (List.mem_map_of_mem _ (by simp [hcr]))
          · unfold direct_created_rel is_relationship_entity
            rw [hsrc, htgt]
            simp only [resolve_endpoint]
            rw [hstrip]
            have hc2 : ts.contains spec.rel_type = true := hcval
            have hc3 : spec.rel_type ∈ ts := List.mem_of_elem_eq_true hc2
            simp [hend, hc3]

theorem direct_pairs_fold (sim : String → String → ℚ) (rule : AcRule)
    (hsb : rule_self_blocking rule = true) :
    ∀ (ps : List (Entity × Entity)) (acc : AcReport),
      ∃ ext : List Entity,
        (ps.foldl (autocomplete_process_pair sim rule) acc).model = acc.model ++ ext ∧
        (∀ e ∈ ext, e.name = "") ∧
        (∀ p ∈ ps, eval_autocomplete_conditions sim
            (ps.foldl (autocomplete_process_pair sim rule) acc).model
            p.1 p.2 rule.conditions = false) := by
  have he : rule.action.create_element = none := by
    unfold rule_self_blocking at hsb
    simp only [Bool.and_eq_true, decide_eq_true_eq] at hsb
    exact hsb.1.1
  intro ps
  induction ps with
  | nil =>
      intro acc
      exact ⟨[], by simp, by simp, by simp⟩
  | cons p ps ih =>
      intro acc
      rw [List.foldl_cons]
      cases hcond : eval_autocomplete_conditions sim acc.model p.1 p.2 rule.conditions with
      | false =>
          rw [process_pair_false sim rule acc p hcond]
          obtain ⟨ext, hmod, hnames, hfalse⟩ := ih acc
          refine ⟨ext, hmod, hnames, ?_⟩
          intro q hq
          rcases List.mem_cons.mp hq with hqe | hqm
          · subst hqe
            rw [hmod]
            exact eval_conditions_mono sim acc.model ext q.1 q.2 rule.conditions hcond
          · exact hfalse q hqm
      | true =>
          have hmod1 := process_pair_true_model sim rule acc p he hcond
          obtain ⟨ext, hmod, hnames, hfalse⟩ := ih (autocomplete_process_pair sim rule acc p)
          refine ⟨rule.action.create_relationships.map (direct_created_rel acc.model p.1 p.2)
            ++ ext, ?_, ?_, ?_⟩
          · rw [hmod, hmod1, List.append_assoc]
          · intro e hemem
            rcases List.mem_append.mp hemem with h1 | h2
            · rcases List.mem_map.mp h1 with ⟨sp, _, hsp⟩
              rw [← hsp]; rfl
            · exact hnames e h2
          · intro q hq
            rcases List.mem_cons.mp hq with hqe | hqm
            · subst hqe
              rw [hmod, hmod1]
              exact eval_conditions_mono sim _ ext q.1 q.2 rule.conditions
                (fired_pair_blocked sim acc.model rule q.1 q.2 hsb)
            · exact hfalse q hqm

theorem direct_run_post (sim : String → String → ℚ) (m : ArchiModel) :
    ∀ rules : List AcRule, (∀ r ∈ rules, rule_self_blocking r = true) →
    ∀ acc : AcReport,
      ∃ ext : List Entity,
        (rules.foldl (fun a r =>
            (rule_pairs m r).foldl (autocomplete_process_pair sim r) a) acc).model =
          acc.model ++ ext ∧
        (∀ e ∈ ext, e.name = "") ∧
        (∀ r ∈ rules, ∀ p ∈ rule_pairs m r,
          eval_autocomplete_conditions sim
            (rules.foldl (fun a r =>
              (rule_pairs m r).foldl (autocomplete_process_pair sim r) a) acc).model
            p.1 p.2 r.conditions = false) := by
  intro rules
  induction rules with
  | nil => intro _ acc; exact ⟨[], by simp, by simp, by simp⟩
  | cons r rest ih =>
      intro hsb acc
      rw [List.foldl_cons]
      obtain ⟨ext1, hmod1, hnames1, hfalse1⟩ :=
        direct_pairs_fold sim r (hsb r (List.mem_cons_self r rest)) (rule_pairs m r) acc
      obtain ⟨ext2, hmod2, hnames2, hfalse2⟩ :=
        ih (fun q hq => hsb q (List.mem_cons_of_mem r hq))
          ((rule_pairs m r).foldl (autocomplete_process_pair sim r) acc)
      refine ⟨ext1 ++ ext2, ?_, ?_, ?_⟩
      · rw [hmod2, hmod1, List.append_assoc]
      · intro e hemem
        rcases List.mem_append.mp hemem with h1 | h2
        · exact hnames1 e h1
        · exact hnames2 e h2
      · intro q hq p hp
        rcases List.mem_cons.mp hq with hqr | hqm
        · subst hqr
          rw [hmod2]
          exact eval_conditions_mono sim _ ext2 p.1 p.2 _ (hfalse1 p hp)
        · exact hfalse2 q hqm p hp

theorem eligible_append_blank (m ext : ArchiModel) (h : ∀ e ∈ ext, e.name = "") :
    eligible_elements (m ++ ext) = eligible_elements m := by
  unfold eligible_elements
  rw [List.filter_append]
  have hz : ext.filter
      (fun e => !(e.id = "") && !(e.name = "") && !(e.xsiType = "")) = [] := by
    apply List.filter_eq_nil_iff.mpr
    intro e he
    simp [h e he]
  rw [hz, List.append_nil]

theorem elements_of_type_append_blank (m ext : ArchiModel)
    (h : ∀ e ∈ ext, e.name = "") (t : String) :
    elements_of_type (m ++ ext) t = elements_of_type m t := by
  unfold elements_of_type
  rw [eligible_append_blank m ext h]

theorem rule_sources_append_blank (m ext : ArchiModel)
    (h : ∀ e ∈ ext, e.name = "") (rule : AcRule) :
    rule_sources (m ++ ext) rule = rule_sources m rule := by
  unfold rule_sources
  have hf : (fun (acc : List Entity) (t : String) =>
      acc ++ elements_of_type (m ++ ext) t) =
      (fun acc t => acc ++ elements_of_type m t) := by
    funext acc t
    rw [elements_of_type_append_blank m ext h t]
  rw [hf]

theorem rule_targets_append_blank (m ext : ArchiModel)
    (h : ∀ e ∈ ext, e.name = "") (rule : AcRule) :
    rule_targets (m ++ ext) rule = rule_targets m rule := by
  unfold rule_targets
  have hf : (fun (acc : List Entity) (t : String) =>
      acc ++ elements_of_type (m ++ ext) t) =
      (fun acc t => acc ++ elements_of_type m t) := by
    funext acc t
    rw [elements_of_type_append_blank m ext h t]
  rw [hf]

theorem rule_pairs_append_blank (m ext : ArchiModel)
    (h : ∀ e ∈ ext, e.name = "") (rule : AcRule) :
    rule_pairs (m ++ ext) rule = rule_pairs m rule := by
  unfold rule_pairs
  rw [rule_sources_append_blank m ext h rule, rule_targets_append_blank m ext h rule]

theorem pairs_fold_noop (sim : String → String → ℚ) (rule : AcRule) :
    ∀ (ps : List (Entity × Entity)) (acc : AcReport),
      (∀ p ∈ ps,
        eval_autocomplete_conditions sim acc.model p.1 p.2 rule.conditions = false) →
      ps.foldl (autocomplete_process_pair sim rule) acc = acc := by
  intro ps
  induction ps with
  | nil => intro acc _; rfl
  | cons p ps ih =>
      intro acc h
      rw [List.foldl_cons, process_pair_false sim rule acc p (h p (List.mem_cons_self p ps))]
      exact ih acc (fun q hq => h q (List.mem_cons_of_mem p hq))

theorem run_noop (sim : String → String → ℚ) (m2 : ArchiModel) :
    ∀ (rules : List AcRule) (acc : AcReport),
      (∀ r ∈ rules, ∀ p ∈ rule_pairs m2 r,
        eval_autocomplete_conditions sim acc.model p.1 p.2 r.conditions = false) →
      rules.foldl (fun a r =>
        (rule_pairs m2 r).foldl (autocomplete_process_pair sim r) a) acc = acc := by
  intro rules
  induction rules with
  | nil => intro acc _; rfl
  | cons r rest ih =>
      intro acc h
      rw [List.foldl_cons, pairs_fold_noop sim r (rule_pairs m2 r) acc
        (h r (List.mem_cons_self r rest))]
      exact ih acc (fun q hq p hp => h q (List.mem_cons_of_mem r hq) p hp)

/-- **C8 counterexample.** Idempotence fails for the full rule set: on a
model with a `BusinessActor` and an `ApplicationService` named
"Portal API", the interface-insertion rule fires on the first run (one
new `ApplicationInterface` element) and fires again on the second run
(another new element) — its no-relationship condition inspects only
relationships directly between the pair, while the rule creates
intermediary→target and intermediary→source relationships, so it never
blocks itself. -/
theorem autocomplete_insert_intermediary_not_idempotent :
    (autocomplete_run AUTOCOMPLETE_RULES zero_sim ac_model).added_elements.length = 1 ∧
    List.length
      (autocomplete_run AUTOCOMPLETE_RULES zero_sim
        (autocomplete_run AUTOCOMPLETE_RULES zero_sim ac_model).model).added_elements
      = 1 := by
  decide

/-- **C8 (amended, spec-modelled).** For the thirteen
`direct_relationship` rules the claim holds for every similarity metric
and every model: each such rule creates only source→target relationships
whose type appears in the rule's own `no_relationship_of_type` condition,
so the first run re-blocks every matching pair and a second run over the
enriched model creates zero new elements and zero new relationships. -/
theorem direct_autocomplete_idempotent (sim : String → String → ℚ) (m : ArchiModel) :
    (autocomplete_run direct_autocomplete_rules sim
        (autocomplete_run direct_autocomplete_rules sim m).model).added_elements = [] ∧
    AcReport.added_relationships
      (autocomplete_run direct_autocomplete_rules sim
        (autocomplete_run direct_autocomplete_rules sim m).model) = [] := by
  obtain ⟨ext, hmod, hnames, hfalse⟩ :=
    direct_run_post sim m direct_autocomplete_rules direct_rules_self_blocking
      ⟨m, [], []⟩
  have hdef : autocomplete_run direct_autocomplete_rules sim m =
      direct_autocomplete_rules.foldl (fun a r =>
        (rule_pairs m r).foldl (autocomplete_process_pair sim r) a) ⟨m, [], []⟩ := rfl
  have hrun2 : autocomplete_run direct_autocomplete_rules sim
      (autocomplete_run direct_autocomplete_rules sim m).model =
      ⟨(autocomplete_run direct_autocomplete_rules sim m).model, [], []⟩ := by
    have hdef2 : autocomplete_run direct_autocomplete_rules sim
        (autocomplete_run direct_autocomplete_rules sim m).model =
        direct_autocomplete_rules.foldl (fun a r =>
          (rule_pairs (autocomplete_run direct_autocomplete_rules sim m).model r).foldl
            (autocomplete_process_pair sim r) a)
          ⟨(autocomplete_run direct_autocomplete_rules sim m).model, [], []⟩ := rfl
    rw [hdef2]
    apply run_noop
    intro r hr p hp
    have hp' : p ∈ rule_pairs m r := by
      rw [hdef, hmod] at hp
      rwa [rule_pairs_append_blank m ext hnames r] at hp
    exact hfalse r hr p hp'
  rw [hrun2]
  exact ⟨rfl, rfl⟩

end ArchimateIngester
